import Mathlib

/-!
Shallow embedding of the kite issue deduplication and lifecycle engine
(`internal/repository`, package `repository`, together with the data model of
`internal/models` and the SQL schema of the migration file).

The relational store is modelled as lists of rows; UUID generation is modelled
by a fresh-id counter (`nextId`); wall-clock time (`time.Now()`) is modelled as
an explicit `now : Nat` parameter; `time.Time` zero values are modelled by the
natural number `0` and nullable timestamps by `Option Nat`.
-/

namespace Kite


/-- Embedding of `models.IssueState` values (`ACTIVE` / `RESOLVED`), kept as strings as in
the Go source (`type IssueState string`). -/
def stateActive : String := "ACTIVE"

def stateResolved : String := "RESOLVED"

/-- Embedding of `models.IssueScope`: id, resource type, resource name, resource namespace. -/
structure IssueScope where
  id : Nat
  resourceType : String
  resourceName : String
  resourceNamespace : String
deriving DecidableEq, Repr

/-- Embedding of `models.Issue` (the columns the repository reads or writes; `instance`,
which no claim touches, is omitted). `resolvedAt` is nullable. -/
structure Issue where
  id : Nat
  title : String
  description : String
  severity : String
  issueType : String
  state : String
  detectedAt : Nat
  resolvedAt : Option Nat
  ns : String
  scopeId : Nat
  createdAt : Nat
  updatedAt : Nat
deriving DecidableEq, Repr

/-- Embedding of `models.Link`: a titled URL owned by one issue. -/
structure Link where
  id : Nat
  title : String
  url : String
  issueId : Nat
deriving DecidableEq, Repr

/-- Embedding of `models.RelatedIssue`: a directed edge between two issues. -/
structure RelatedIssue where
  id : Nat
  sourceId : Nat
  targetId : Nat
deriving DecidableEq, Repr

/-- The relational store: the four tables of the migration file
(`issues`, `issue_scopes`, `links`, `related_issues`), plus a fresh-id
counter standing in for `gen_random_uuid()`.  The schema has no uniqueness
constraint over the dedup key (only the primary keys, the `scope_id`
uniqueness and the foreign keys). -/
structure Store where
  issues : List Issue
  scopes : List IssueScope
  links : List Link
  related : List RelatedIssue
  nextId : Nat
deriving DecidableEq, Repr

def emptyStore : Store := ⟨[], [], [], [], 0⟩

/-- Embedding of `dto.CreateLinkRequest`: title and URL of a link in a report. -/
structure LinkPayload where
  title : String
  url : String
deriving DecidableEq, Repr

/-- Modelled from the spec: the scope part of a report (the `dto` package is
not under `src/`; per §6 a report carries a scope triple: resource type,
resource name, resource namespace, each an optional string field, absent
encoded as `""` as in `dto.ScopeReqBodyOptional`). -/
structure ScopePayload where
  resourceType : String
  resourceName : String
  resourceNamespace : String
deriving DecidableEq, Repr

def emptyScopePayload : ScopePayload := ⟨"", "", ""⟩

/-- Modelled from the spec: `dto.IssuePayload` (the `dto` package is not under
`src/`).  Per §6 a report carries title, description, severity, issue type,
namespace, scope triple, optional links, optional explicit state and
resolution time; the repository reads it only through the getters
`GetTitle`, `GetDescription`, `GetSeverity`, `GetIssueType`, `GetNamespace`,
`GetState`, `GetResolvedAt`, `GetScope`, `GetLinks`, each returning the zero
value (`""`, zero time, empty struct, empty slice) when absent.
`resolvedAt = 0` models the zero `time.Time` (`IsZero`). -/
structure IssuePayload where
  title : String
  description : String
  severity : String
  issueType : String
  ns : String
  state : String
  resolvedAt : Nat
  scope : ScopePayload
  links : List LinkPayload
deriving DecidableEq, Repr

/-- The row predicate of `findDuplicateInTx`'s query: the join of `issues`
with `issue_scopes` on `issues.scope_id = issue_scopes.id`, filtered by
`issues.namespace = req.GetNamespace() AND issues.issue_type =
req.GetIssueType() AND issues.state IN (ACTIVE, RESOLVED)` and
`issue_scopes.resource_type = req.GetScope().GetResourceType() AND
issue_scopes.resource_name = req.GetScope().GetResourceName() AND
issue_scopes.resource_namespace = req.GetNamespace()`.  Note the last
comparand is the report's namespace field, not its scope's
resource namespace. -/
def matchesDedup (scopes : List IssueScope) (req : IssuePayload) (iss : Issue) : Bool :=
  match scopes.find? (fun s => s.id == iss.scopeId) with
  | none => false
  | some s =>
    iss.ns == req.ns && iss.issueType == req.issueType &&
    (iss.state == stateActive || iss.state == stateResolved) &&
    s.resourceType == req.scope.resourceType &&
    s.resourceName == req.scope.resourceName &&
    s.resourceNamespace == req.ns

/-- Embedding of `issueRepository.findDuplicateInTx`: `First` over the filtered join,
`gorm.ErrRecordNotFound` mapped to `none`. -/
def findDuplicateInTx (st : Store) (req : IssuePayload) : Option Issue :=
  st.issues.find? (matchesDedup st.scopes req)

/-- Embedding of `issueRepository.FindByID` (associations elided): `First` on `id = ?`,
not-found mapped to `none`. -/
def findByID (st : Store) (id : Nat) : Option Issue :=
  st.issues.find? (fun i => i.id == id)

/-- Embedding of `issueRepository.createNewIssueInTx`: defaults state to `ACTIVE` and the
scope's resource namespace to the report's namespace when absent, then
inserts the issue, its scope and its links (`tx.Create` cascading through
the associations; fresh ids stand in for the `BeforeCreate` UUID hooks). -/
def createNewIssueInTx (st : Store) (req : IssuePayload) (now : Nat) : Issue × Store :=
  let state := if req.state == "" then stateActive else req.state
  let resourceNamespace :=
    if req.scope.resourceNamespace == "" then req.ns else req.scope.resourceNamespace
  let scopeId := st.nextId
  let issueId := st.nextId + 1
  let scope : IssueScope :=
    ⟨scopeId, req.scope.resourceType, req.scope.resourceName, resourceNamespace⟩
  let issue : Issue :=
    { id := issueId, title := req.title, description := req.description,
      severity := req.severity, issueType := req.issueType, state := state,
      detectedAt := now, resolvedAt := none, ns := req.ns,
      scopeId := scopeId, createdAt := now, updatedAt := now }
  let newLinks := (List.range req.links.length).zip req.links |>.map
    (fun p => Link.mk (st.nextId + 2 + p.1) p.2.title p.2.url issueId)
  (issue,
    { st with
      issues := st.issues ++ [issue],
      scopes := st.scopes ++ [scope],
      links := st.links ++ newLinks,
      nextId := st.nextId + 2 + req.links.length })

/-- Go line `if title := req.GetTitle(); title != "" { updates["title"] = title }`. -/
def updTitle (req : IssuePayload) (iss : Issue) : Issue :=
  if req.title == "" then iss else { iss with title := req.title }

/-- Go line `if desc := req.GetDescription(); desc != "" { updates["description"] = desc }`. -/
def updDescription (req : IssuePayload) (iss : Issue) : Issue :=
  if req.description == "" then iss else { iss with description := req.description }

/-- Go line `if severity := req.GetSeverity(); severity != "" { updates["severity"] = severity }`. -/
def updSeverity (req : IssuePayload) (iss : Issue) : Issue :=
  if req.severity == "" then iss else { iss with severity := req.severity }

/-- Go line `if issueType := req.GetIssueType(); issueType != "" { updates["issue_type"] = issueType }`. -/
def updIssueType (req : IssuePayload) (iss : Issue) : Issue :=
  if req.issueType == "" then iss else { iss with issueType := req.issueType }

/-- Go line `if namespace := req.GetNamespace(); namespace != "" { updates["namespace"] = namespace }`. -/
def updNamespace (req : IssuePayload) (iss : Issue) : Issue :=
  if req.ns == "" then iss else { iss with ns := req.ns }

/-- Go line `updates["updated_at"] = time.Now()` — always refreshed. -/
def updTimestamp (now : Nat) (iss : Issue) : Issue :=
  { iss with updatedAt := now }

/-- The state block of `updateIssueInTx`: when a state is supplied, write it,
and write `resolved_at = now` on a transition into RESOLVED from a
different loaded state (`origState` is `existingIssue.State`), else the
request's resolution time when that is non-zero. -/
def updState (req : IssuePayload) (now : Nat) (origState : String) (iss : Issue) : Issue :=
  if req.state == "" then iss
  else
    let iss' := { iss with state := req.state }
    if req.state == stateResolved && origState != stateResolved then
      { iss' with resolvedAt := some now }
    else if req.resolvedAt != 0 then
      { iss' with resolvedAt := some req.resolvedAt }
    else iss'

/-- The `updates` map of `updateIssueInTx` applied to the issue row: each
field is written only when the request supplies a non-empty value,
`updated_at` is always refreshed, and the state/resolved-at block runs
against the loaded issue's state. -/
def applyIssueUpdates (iss : Issue) (req : IssuePayload) (now : Nat) : Issue :=
  updState req now iss.state
    (updTimestamp now
      (updNamespace req (updIssueType req (updSeverity req (updDescription req
        (updTitle req iss))))))

/-- Embedding of `issueRepository.replaceIssueLinks`: delete every link of the issue, then
insert the supplied links. -/
def replaceIssueLinks (st : Store) (issueId : Nat) (links : List LinkPayload) : Store :=
  let kept := st.links.filter (fun l => l.issueId != issueId)
  let newLinks := (List.range links.length).zip links |>.map
    (fun p => Link.mk (st.nextId + p.1) p.2.title p.2.url issueId)
  { st with links := kept ++ newLinks, nextId := st.nextId + links.length }

/-- Embedding of `issueRepository.updateIssueScopeInTx`: gorm `Updates` with a struct
writes only the non-zero (non-empty) fields of the scope row `id = scopeID`. -/
def updateScopeRow (s : IssueScope) (sp : ScopePayload) : IssueScope :=
  let s := if sp.resourceType == "" then s else { s with resourceType := sp.resourceType }
  let s := if sp.resourceName == "" then s else { s with resourceName := sp.resourceName }
  if sp.resourceNamespace == "" then s else { s with resourceNamespace := sp.resourceNamespace }

/-- Embedding of `issueRepository.updateIssueInTx`: update the issue row, replace the links
when the request supplies a non-empty link list, and update the scope row in
place when the request's scope struct is non-empty. -/
def updateIssueInTx (st : Store) (existing : Issue) (req : IssuePayload) (now : Nat) : Store :=
  let st :=
    { st with
      issues := st.issues.map
        (fun i => if i.id == existing.id then applyIssueUpdates i req now else i) }
  let st := if req.links.isEmpty then st else replaceIssueLinks st existing.id req.links
  if req.scope == emptyScopePayload then st
  else
    { st with
      scopes := st.scopes.map
        (fun s => if s.id == existing.scopeId then updateScopeRow s req.scope else s) }

/-- Embedding of `issueRepository.CreateOrUpdate`: inside one transaction, look for a
duplicate; create a new issue when none exists, else update the found one;
finally reload the record by id (`FindByID`). -/
def createOrUpdate (st : Store) (req : IssuePayload) (now : Nat) : Option Issue × Store :=
  match findDuplicateInTx st req with
  | none =>
    (findByID (createNewIssueInTx st req now).2 (createNewIssueInTx st req now).1.id,
     (createNewIssueInTx st req now).2)
  | some existing =>
    (findByID (updateIssueInTx st existing req now) existing.id,
     updateIssueInTx st existing req now)

/-- Sequential submission of the same report at successive times
(`nows`), collecting each call's returned record. -/
def createOrUpdateSeq (st : Store) (req : IssuePayload) :
    List Nat → List (Option Issue) × Store
  | [] => ([], st)
  | now :: rest =>
    ((createOrUpdate st req now).1 ::
      (createOrUpdateSeq (createOrUpdate st req now).2 req rest).1,
     (createOrUpdateSeq (createOrUpdate st req now).2 req rest).2)

/-- The row predicate of `ResolveByScope`'s id query: ACTIVE issues of the
namespace whose joined scope matches the resource type and name. -/
def matchesResolveScope (scopes : List IssueScope)
    (resourceType resourceName ns : String) (iss : Issue) : Bool :=
  iss.state == stateActive && iss.ns == ns &&
  match scopes.find? (fun s => s.id == iss.scopeId) with
  | none => false
  | some s => s.resourceType == resourceType && s.resourceName == resourceName

/-- Embedding of `issueRepository.ResolveByScope`: pluck the matching ids; when none, return
0; else update every issue with an id in the list to RESOLVED with
`resolved_at` and `updated_at` set to one timestamp, returning the number of
rows affected. -/
def resolveByScope (st : Store) (resourceType resourceName ns : String) (now : Nat) :
    Nat × Store :=
  let ids := (st.issues.filter (matchesResolveScope st.scopes resourceType resourceName ns)).map
    Issue.id
  if ids.isEmpty then (0, st)
  else
    let issues := st.issues.map (fun i =>
      if ids.contains i.id then
        { i with state := stateResolved, resolvedAt := some now, updatedAt := now }
      else i)
    ((st.issues.filter (fun i => ids.contains i.id)).length, { st with issues })

/-- Embedding of `issueRepository.Delete`: fail when the issue does not exist; else, inside
one transaction, delete the incident related-issue edges, the issue's links,
the issue row, and the issue's scope row, in that order. -/
def deleteIssue (st : Store) (id : Nat) : Except String Store :=
  match findByID st id with
  | none => .error "issue not found"
  | some issue =>
    .ok { st with
      related := st.related.filter (fun r => !(r.sourceId == id || r.targetId == id)),
      links := st.links.filter (fun l => l.issueId != id),
      issues := st.issues.filter (fun i => i.id != id),
      scopes := st.scopes.filter (fun s => s.id != issue.scopeId) }

/-- The either-direction edge predicate used by `AddRelatedIssue` and
`RemoveRelatedIssue`: `(source_id = ? AND target_id = ?) OR (source_id = ?
AND target_id = ?)` with the pair swapped. -/
def edgeBetween (sourceId targetId : Nat) (r : RelatedIssue) : Bool :=
  (r.sourceId == sourceId && r.targetId == targetId) ||
  (r.sourceId == targetId && r.targetId == sourceId)

/-- Embedding of `issueRepository.AddRelatedIssue`: fail when either issue is missing, fail
when an edge exists between the pair in either direction, else insert one
directed edge row. -/
def addRelatedIssue (st : Store) (sourceId targetId : Nat) : Except String Store :=
  match findByID st sourceId, findByID st targetId with
  | some _, some _ =>
    if (st.related.find? (edgeBetween sourceId targetId)).isSome then
      .error "relationship already exists"
    else
      .ok { st with
        related := st.related ++ [⟨st.nextId, sourceId, targetId⟩],
        nextId := st.nextId + 1 }
  | _, _ => .error "one or both issues not found"

/-- Embedding of `issueRepository.RemoveRelatedIssue`: delete the rows matching the pair in
either direction; when no row was affected, fail with "relationship not
found". -/
def removeRelatedIssue (st : Store) (sourceId targetId : Nat) : Except String Store :=
  let remaining := st.related.filter (fun r => !(edgeBetween sourceId targetId r))
  if remaining.length == st.related.length then .error "relationship not found"
  else .ok { st with related := remaining }

/-- One caller's transaction state in the two-caller interleaving model of
`CreateOrUpdate`: the duplicate-check result once the find step has run, the
ids of the issue rows this transaction holds `FOR UPDATE` locks on, whether
it has committed, and the issue id the call returns. -/
structure TxState where
  found : Option (Option Issue)
  locked : List Nat
  committed : Bool
  ret : Option Nat
deriving DecidableEq, Repr

def initTx : TxState := ⟨none, [], false, none⟩

/-- Two concurrent `CreateOrUpdate` transactions over one committed store. -/
structure ConcSystem where
  store : Store
  tx1 : TxState
  tx2 : TxState
deriving DecidableEq, Repr

inductive ConcStep
  | find1 | find2 | commit1 | commit2
deriving DecidableEq, Repr

/-- The duplicate-check step of one caller's transaction under READ COMMITTED:
it reads the committed store and takes the `FOR UPDATE` row locks on the
matched rows.  When a row it matches is held locked by the other, not yet
committed transaction, the step blocks (modelled as a no-op: a schedule in
which it runs anyway is not a schedule of the system).  When no duplicate
exists yet, no row is matched and no lock is taken — locking a non-existent
row is a no-op. -/
def txFind (store : Store) (req : IssuePayload) (other : TxState) (tx : TxState) : TxState :=
  if tx.found.isSome || tx.committed then tx
  else
    let matchedIds := (store.issues.filter (matchesDedup store.scopes req)).map Issue.id
    if !other.committed && matchedIds.any (fun i => other.locked.contains i) then tx
    else { tx with found := some (findDuplicateInTx store req), locked := matchedIds }

/-- The write-and-commit step of one caller's transaction: following the
decision taken at its find step, either insert a new issue (the schema has
no uniqueness constraint over the dedup key, so the insert succeeds
unconditionally) or update the found one, then release the locks.  `ret` is
the id of the record the call returns (`CreateOrUpdate` reloads the record
by that id after the transaction commits). -/
def txCommit (store : Store) (req : IssuePayload) (now : Nat) (tx : TxState) :
    Store × TxState :=
  match tx.found with
  | none => (store, tx)
  | some res =>
    if tx.committed then (store, tx)
    else
      match res with
      | none =>
        let (iss, store') := createNewIssueInTx store req now
        (store', { tx with committed := true, locked := [], ret := some iss.id })
      | some existing =>
        (updateIssueInTx store existing req now,
         { tx with committed := true, locked := [], ret := some existing.id })

def stepConc (req : IssuePayload) (now : Nat) (sys : ConcSystem) : ConcStep → ConcSystem
  | .find1 => { sys with tx1 := txFind sys.store req sys.tx2 sys.tx1 }
  | .find2 => { sys with tx2 := txFind sys.store req sys.tx1 sys.tx2 }
  | .commit1 =>
    let p := txCommit sys.store req now sys.tx1
    { sys with store := p.1, tx1 := p.2 }
  | .commit2 =>
    let p := txCommit sys.store req now sys.tx2
    { sys with store := p.1, tx2 := p.2 }

def runConc (req : IssuePayload) (now : Nat) : ConcSystem → List ConcStep → ConcSystem
  | sys, [] => sys
  | sys, s :: rest => runConc req now (stepConc req now sys s) rest

/-- A report whose scope resource namespace coincides with its namespace (the
shape every repository test uses). -/
def reqA : IssuePayload :=
  { title := "t", description := "d", severity := "major", issueType := "build",
    ns := "team-a", state := "", resolvedAt := 0,
    scope := ⟨"component", "comp", "team-a"⟩, links := [] }

/-- A report whose scope resource namespace (`team-b`) differs from its
namespace (`team-a`). -/
def reqB : IssuePayload :=
  { title := "t", description := "d", severity := "major", issueType := "build",
    ns := "team-a", state := "", resolvedAt := 0,
    scope := ⟨"component", "comp", "team-b"⟩, links := [] }

def scopeB : IssueScope := ⟨0, "component", "comp", "team-b"⟩

/-- An ACTIVE issue in namespace `team-a` owning `scopeB`. -/
def issueB : Issue :=
  { id := 1, title := "t0", description := "d0", severity := "major", issueType := "build",
    state := "ACTIVE", detectedAt := 0, resolvedAt := none, ns := "team-a",
    scopeId := 0, createdAt := 0, updatedAt := 0 }

def storeB : Store := ⟨[issueB], [scopeB], [], [], 2⟩

def scopeA : IssueScope := ⟨0, "component", "comp", "team-a"⟩

/-- A RESOLVED issue in namespace `team-a` owning `scopeA`. -/
def issueR : Issue :=
  { id := 1, title := "t0", description := "d0", severity := "major", issueType := "build",
    state := "RESOLVED", detectedAt := 0, resolvedAt := some 3, ns := "team-a",
    scopeId := 0, createdAt := 0, updatedAt := 0 }

def storeR : Store := ⟨[issueR], [scopeA], [], [], 2⟩

/-- An update supplying state RESOLVED together with an explicit non-zero
resolution time 5. -/
def reqResolve : IssuePayload :=
  { title := "", description := "", severity := "", issueType := "",
    ns := "", state := "RESOLVED", resolvedAt := 5, scope := ⟨"", "", ""⟩, links := [] }


def scopeC : IssueScope := ⟨2, "component", "comp2", "team-a"⟩

/-- A second ACTIVE issue (id 3) owning `scopeC`, coexisting with `issueB`. -/
def issueC : Issue :=
  { id := 3, title := "t1", description := "d1", severity := "minor", issueType := "test",
    state := "ACTIVE", detectedAt := 0, resolvedAt := none, ns := "team-a",
    scopeId := 2, createdAt := 0, updatedAt := 0 }

def storeC : Store := ⟨[issueB, issueC], [scopeB, scopeC], [], [], 4⟩


def linkD : Link := ⟨5, "log", "https://konflux.test/log", 1⟩

def edgeD : RelatedIssue := ⟨6, 1, 3⟩

/-- Issues 1 and 3, a link owned by issue 1, and an edge 1 → 3. -/
def storeD : Store := ⟨[issueB, issueC], [scopeB, scopeC], [linkD], [edgeD], 7⟩

/-- A title-only update request. -/
def reqTitle : IssuePayload :=
  { title := "new title", description := "", severity := "", issueType := "",
    ns := "", state := "", resolvedAt := 0, scope := ⟨"", "", ""⟩, links := [] }

/-- A links-only update request with two links sharing a URL (no dedup). -/
def reqLinks : IssuePayload :=
  { title := "", description := "", severity := "", issueType := "",
    ns := "", state := "", resolvedAt := 0, scope := ⟨"", "", ""⟩,
    links := [⟨"a", "https://konflux.test/x"⟩, ⟨"b", "https://konflux.test/x"⟩] }


/-- The scope part of the dedup key as the duplicate query compares it:
resource type and name from the report's scope, resource namespace equal to
the report's namespace. -/
def scopeTripleFor (req : IssuePayload) (s : IssueScope) : Bool :=
  s.resourceType == req.scope.resourceType &&
  s.resourceName == req.scope.resourceName &&
  s.resourceNamespace == req.ns

/-- The issue row `createNewIssueInTx` inserts. -/
def createdIssue (st : Store) (req : IssuePayload) (now : Nat) : Issue :=
  { id := st.nextId + 1, title := req.title, description := req.description,
    severity := req.severity, issueType := req.issueType,
    state := if req.state == "" then stateActive else req.state,
    detectedAt := now, resolvedAt := none, ns := req.ns,
    scopeId := st.nextId, createdAt := now, updatedAt := now }

/-- The scope row `createNewIssueInTx` inserts. -/
def createdScope (st : Store) (req : IssuePayload) : IssueScope :=
  ⟨st.nextId, req.scope.resourceType, req.scope.resourceName,
    if req.scope.resourceNamespace == "" then req.ns else req.scope.resourceNamespace⟩

/-- Invariant threaded through sequential `CreateOrUpdate` calls submitting
report `req`: row keys are unique, the duplicate query finds exactly one
matching issue — the one with issue id `i0` owning scope id `s0` — and
exactly one scope row carries the report's scope triple, namely the one
with id `s0`. -/
def SeqInv (req : IssuePayload) (i0 s0 : Nat) (st : Store) : Prop :=
  (st.issues.map Issue.id).Nodup ∧
  (st.issues.map Issue.scopeId).Nodup ∧
  (st.scopes.map IssueScope.id).Nodup ∧
  (∃ j, findDuplicateInTx st req = some j ∧ j.id = i0 ∧ j.scopeId = s0) ∧
  (st.issues.filter (matchesDedup st.scopes req)).length = 1 ∧
  (st.scopes.filter (scopeTripleFor req)).length = 1 ∧
  (∀ s ∈ st.scopes, scopeTripleFor req s = true → s.id = s0)

/-- C1, counterexample: two sequential `CreateOrUpdate` calls with the
identical report `reqB`, whose dedup key has scope resource namespace
`team-b` under namespace `team-a`, return different issue ids (1, then 3)
and leave two Issue rows and two Scope rows in the store: the duplicate
check compares the stored scope's resource namespace against the report's
namespace, so the second call misses the first call's row. -/
theorem C1_counterexample :
    (createOrUpdateSeq emptyStore reqB [10, 20]).1.map (fun r => r.map Issue.id) =
      [some 1, some 3] ∧
    (createOrUpdateSeq emptyStore reqB [10, 20]).2.issues.length = 2 ∧
    (createOrUpdateSeq emptyStore reqB [10, 20]).2.scopes.length = 2 := by
  decide

/-- C3, counterexample: a report carrying no explicit state whose dedup key
matches the RESOLVED issue `issueR` is routed to the update path
(same id 1, no new row), but the persisted and returned state stays
RESOLVED — the update writes state only when the request supplies one, so
the issue is not reopened to ACTIVE as the claim states. -/
theorem C3_counterexample :
    (createOrUpdate storeR reqA 10).1.map Issue.state = some stateResolved ∧
    (createOrUpdate storeR reqA 10).1.map Issue.id = some 1 ∧
    (createOrUpdate storeR reqA 10).2.issues.length = 1 ∧
    stateResolved ≠ stateActive := by
  decide

/-- C4, counterexample: `issueB`/`scopeB` agree with report `reqB` on all five
dedup-key components (namespace, issue type, scope resource type, name and
resource namespace — both `team-b`) and the issue is ACTIVE, yet
`findDuplicateInTx` returns none, because the query compares the stored
scope's resource namespace against the report's namespace (`team-a`), not
against the report's scope resource namespace. -/
theorem C4_counterexample :
    (issueB.ns = reqB.ns ∧ issueB.issueType = reqB.issueType ∧
      issueB.state = stateActive ∧
      scopeB.id = issueB.scopeId ∧
      scopeB.resourceType = reqB.scope.resourceType ∧
      scopeB.resourceName = reqB.scope.resourceName ∧
      scopeB.resourceNamespace = reqB.scope.resourceNamespace) ∧
    findDuplicateInTx storeB reqB = none := by
  decide

/-- C5, counterexample: updating the ACTIVE issue `issueB` with state RESOLVED
and the explicit non-zero resolution time 5 at now = 100 persists
resolved-at = 100 (now), not the caller-supplied 5: on a transition into
RESOLVED from another state the code unconditionally stamps `time.Now()`
and only reads the caller's resolution time otherwise. -/
theorem C5_counterexample :
    ((updateIssueInTx storeB issueB reqResolve 100).issues.find?
        (fun i => i.id == 1)).map Issue.resolvedAt = some (some 100) ∧
    reqResolve.resolvedAt = 5 ∧ (5 : Nat) ≠ 100 := by
  decide

/-- C2: refuted on the code — under the interleaving find1, find2, commit1,
commit2 of two concurrent `CreateOrUpdate` callers submitting the same
report against an empty store, both duplicate checks observe "no match"
(there is no row to lock, and the schema has no uniqueness constraint over
the dedup key), both inserts commit, the two callers return different issue
ids, and the store afterwards holds two Issue rows for the one dedup key —
not the exactly-one row the claim requires under arbitrary interleaving. -/
theorem C2_concurrent_dedup_race :
    ((runConc reqA 7 ⟨emptyStore, initTx, initTx⟩
        [ConcStep.find1, ConcStep.find2, ConcStep.commit1, ConcStep.commit2]).store.issues.filter
      (matchesDedup (runConc reqA 7 ⟨emptyStore, initTx, initTx⟩
        [ConcStep.find1, ConcStep.find2, ConcStep.commit1,
          ConcStep.commit2]).store.scopes reqA)).length = 2 ∧
    (runConc reqA 7 ⟨emptyStore, initTx, initTx⟩
        [ConcStep.find1, ConcStep.find2, ConcStep.commit1, ConcStep.commit2]).tx1.ret =
      some 1 ∧
    (runConc reqA 7 ⟨emptyStore, initTx, initTx⟩
        [ConcStep.find1, ConcStep.find2, ConcStep.commit1, ConcStep.commit2]).tx2.ret =
      some 3 := by
  decide

theorem find?_map_congr {α β : Type} (g : α → β) (p : α → Bool) (q : β → Bool) :
    ∀ (l : List α), (∀ a ∈ l, q (g a) = p a) →
      (l.map g).find? q = (l.find? p).map g := by
  intro l
  induction l with
  | nil => intro _; rfl
  | cons a t ih =>
    intro h
    simp only [List.map_cons]
    by_cases hp : p a = true
    · rw [List.find?_cons_of_pos _ (by rw [h a (List.mem_cons_self a t)]; exact hp),
        List.find?_cons_of_pos _ hp]
      rfl
    · rw [List.find?_cons_of_neg _ (by rw [h a (List.mem_cons_self a t)]; simpa using hp),
        List.find?_cons_of_neg _ (by simpa using hp)]
      exact ih (fun x hx => h x (List.mem_cons_of_mem a hx))

theorem filter_map_congr {α β : Type} (g : α → β) (p : α → Bool) (q : β → Bool) :
    ∀ (l : List α), (∀ a ∈ l, q (g a) = p a) →
      (l.map g).filter q = (l.filter p).map g := by
  intro l
  induction l with
  | nil => intro _; rfl
  | cons a t ih =>
    intro h
    simp only [List.map_cons, List.filter_cons, h a (List.mem_cons_self a t)]
    by_cases hp : p a = true
    · simp only [hp, if_true, List.map_cons]
      rw [ih (fun x hx => h x (List.mem_cons_of_mem a hx))]
    · simp only [hp, Bool.false_eq_true, if_false]
      exact ih (fun x hx => h x (List.mem_cons_of_mem a hx))

theorem find?_key_self {α : Type} (key : α → Nat) (x : α) :
    ∀ (l : List α), (l.map key).Nodup → x ∈ l →
      l.find? (fun a => key a == key x) = some x := by
  intro l
  induction l with
  | nil => intro _ hx; cases hx
  | cons a t ih =>
    intro hnd hx
    rw [List.map_cons] at hnd
    have hnd' := List.nodup_cons.mp hnd
    rcases List.mem_cons.mp hx with rfl | hxt
    · exact List.find?_cons_of_pos _ (by simp)
    · have hka : ¬ key a = key x := fun he => hnd'.1 (he ▸ List.mem_map_of_mem key hxt)
      rw [List.find?_cons_of_neg _ (by simpa using hka)]
      exact ih hnd'.2 hxt

@[simp] theorem updTitle_id (req : IssuePayload) (iss : Issue) :
    (updTitle req iss).id = iss.id := by unfold updTitle; split <;> rfl

@[simp] theorem updTitle_scopeId (req : IssuePayload) (iss : Issue) :
    (updTitle req iss).scopeId = iss.scopeId := by unfold updTitle; split <;> rfl

@[simp] theorem updTitle_ns (req : IssuePayload) (iss : Issue) :
    (updTitle req iss).ns = iss.ns := by unfold updTitle; split <;> rfl

@[simp] theorem updTitle_issueType (req : IssuePayload) (iss : Issue) :
    (updTitle req iss).issueType = iss.issueType := by unfold updTitle; split <;> rfl

@[simp] theorem updTitle_state (req : IssuePayload) (iss : Issue) :
    (updTitle req iss).state = iss.state := by unfold updTitle; split <;> rfl

@[simp] theorem updTitle_resolvedAt (req : IssuePayload) (iss : Issue) :
    (updTitle req iss).resolvedAt = iss.resolvedAt := by unfold updTitle; split <;> rfl

@[simp] theorem updDescription_id (req : IssuePayload) (iss : Issue) :
    (updDescription req iss).id = iss.id := by unfold updDescription; split <;> rfl

@[simp] theorem updDescription_scopeId (req : IssuePayload) (iss : Issue) :
    (updDescription req iss).scopeId = iss.scopeId := by unfold updDescription; split <;> rfl

@[simp] theorem updDescription_ns (req : IssuePayload) (iss : Issue) :
    (updDescription req iss).ns = iss.ns := by unfold updDescription; split <;> rfl

@[simp] theorem updDescription_issueType (req : IssuePayload) (iss : Issue) :
    (updDescription req iss).issueType = iss.issueType := by unfold updDescription; split <;> rfl

@[simp] theorem updDescription_state (req : IssuePayload) (iss : Issue) :
    (updDescription req iss).state = iss.state := by unfold updDescription; split <;> rfl

@[simp] theorem updDescription_resolvedAt (req : IssuePayload) (iss : Issue) :
    (updDescription req iss).resolvedAt = iss.resolvedAt := by unfold updDescription; split <;> rfl

@[simp] theorem updSeverity_id (req : IssuePayload) (iss : Issue) :
    (updSeverity req iss).id = iss.id := by unfold updSeverity; split <;> rfl

@[simp] theorem updSeverity_scopeId (req : IssuePayload) (iss : Issue) :
    (updSeverity req iss).scopeId = iss.scopeId := by unfold updSeverity; split <;> rfl

@[simp] theorem updSeverity_ns (req : IssuePayload) (iss : Issue) :
    (updSeverity req iss).ns = iss.ns := by unfold updSeverity; split <;> rfl

@[simp] theorem updSeverity_issueType (req : IssuePayload) (iss : Issue) :
    (updSeverity req iss).issueType = iss.issueType := by unfold updSeverity; split <;> rfl

@[simp] theorem updSeverity_state (req : IssuePayload) (iss : Issue) :
    (updSeverity req iss).state = iss.state := by unfold updSeverity; split <;> rfl

@[simp] theorem updSeverity_resolvedAt (req : IssuePayload) (iss : Issue) :
    (updSeverity req iss).resolvedAt = iss.resolvedAt := by unfold updSeverity; split <;> rfl

@[simp] theorem updIssueType_id (req : IssuePayload) (iss : Issue) :
    (updIssueType req iss).id = iss.id := by unfold updIssueType; split <;> rfl

@[simp] theorem updIssueType_scopeId (req : IssuePayload) (iss : Issue) :
    (updIssueType req iss).scopeId = iss.scopeId := by unfold updIssueType; split <;> rfl

@[simp] theorem updIssueType_ns (req : IssuePayload) (iss : Issue) :
    (updIssueType req iss).ns = iss.ns := by unfold updIssueType; split <;> rfl

@[simp] theorem updIssueType_issueType (req : IssuePayload) (iss : Issue) :
    (updIssueType req iss).issueType =
      if req.issueType == "" then iss.issueType else req.issueType := by
  unfold updIssueType; split <;> simp_all

@[simp] theorem updIssueType_state (req : IssuePayload) (iss : Issue) :
    (updIssueType req iss).state = iss.state := by unfold updIssueType; split <;> rfl

@[simp] theorem updIssueType_resolvedAt (req : IssuePayload) (iss : Issue) :
    (updIssueType req iss).resolvedAt = iss.resolvedAt := by unfold updIssueType; split <;> rfl

@[simp] theorem updNamespace_id (req : IssuePayload) (iss : Issue) :
    (updNamespace req iss).id = iss.id := by unfold updNamespace; split <;> rfl

@[simp] theorem updNamespace_scopeId (req : IssuePayload) (iss : Issue) :
    (updNamespace req iss).scopeId = iss.scopeId := by unfold updNamespace; split <;> rfl

@[simp] theorem updNamespace_ns (req : IssuePayload) (iss : Issue) :
    (updNamespace req iss).ns = if req.ns == "" then iss.ns else req.ns := by
  unfold updNamespace; split <;> simp_all

@[simp] theorem updNamespace_issueType (req : IssuePayload) (iss : Issue) :
    (updNamespace req iss).issueType = iss.issueType := by unfold updNamespace; split <;> rfl

@[simp] theorem updNamespace_state (req : IssuePayload) (iss : Issue) :
    (updNamespace req iss).state = iss.state := by unfold updNamespace; split <;> rfl

@[simp] theorem updNamespace_resolvedAt (req : IssuePayload) (iss : Issue) :
    (updNamespace req iss).resolvedAt = iss.resolvedAt := by unfold updNamespace; split <;> rfl

@[simp] theorem updTimestamp_id (now : Nat) (iss : Issue) :
    (updTimestamp now iss).id = iss.id := rfl

@[simp] theorem updTimestamp_scopeId (now : Nat) (iss : Issue) :
    (updTimestamp now iss).scopeId = iss.scopeId := rfl

@[simp] theorem updTimestamp_ns (now : Nat) (iss : Issue) :
    (updTimestamp now iss).ns = iss.ns := rfl

@[simp] theorem updTimestamp_issueType (now : Nat) (iss : Issue) :
    (updTimestamp now iss).issueType = iss.issueType := rfl

@[simp] theorem updTimestamp_state (now : Nat) (iss : Issue) :
    (updTimestamp now iss).state = iss.state := rfl

@[simp] theorem updTimestamp_resolvedAt (now : Nat) (iss : Issue) :
    (updTimestamp now iss).resolvedAt = iss.resolvedAt := rfl

@[simp] theorem updState_id (req : IssuePayload) (now : Nat) (s : String) (iss : Issue) :
    (updState req now s iss).id = iss.id := by
  unfold updState; split
  · rfl
  · dsimp only; split
    · rfl
    · split <;> rfl

@[simp] theorem updState_scopeId (req : IssuePayload) (now : Nat) (s : String) (iss : Issue) :
    (updState req now s iss).scopeId = iss.scopeId := by
  unfold updState; split
  · rfl
  · dsimp only; split
    · rfl
    · split <;> rfl

@[simp] theorem updState_ns (req : IssuePayload) (now : Nat) (s : String) (iss : Issue) :
    (updState req now s iss).ns = iss.ns := by
  unfold updState; split
  · rfl
  · dsimp only; split
    · rfl
    · split <;> rfl

@[simp] theorem updState_issueType (req : IssuePayload) (now : Nat) (s : String) (iss : Issue) :
    (updState req now s iss).issueType = iss.issueType := by
  unfold updState; split
  · rfl
  · dsimp only; split
    · rfl
    · split <;> rfl

@[simp] theorem updState_state (req : IssuePayload) (now : Nat) (s : String) (iss : Issue) :
    (updState req now s iss).state = if req.state == "" then iss.state else req.state := by
  unfold updState; split
  · simp_all
  · dsimp only; split
    · simp_all
    · split <;> simp_all

theorem updState_resolvedAt (req : IssuePayload) (now : Nat) (s : String) (iss : Issue) :
    (updState req now s iss).resolvedAt =
      if req.state == "" then iss.resolvedAt
      else if req.state == stateResolved && s != stateResolved then some now
      else if req.resolvedAt != 0 then some req.resolvedAt
      else iss.resolvedAt := by
  unfold updState; split
  · simp_all
  · dsimp only; split
    · simp_all
    · split <;> simp_all

theorem applyIssueUpdates_id (iss : Issue) (req : IssuePayload) (now : Nat) :
    (applyIssueUpdates iss req now).id = iss.id := by
  unfold applyIssueUpdates; simp

theorem applyIssueUpdates_scopeId (iss : Issue) (req : IssuePayload) (now : Nat) :
    (applyIssueUpdates iss req now).scopeId = iss.scopeId := by
  unfold applyIssueUpdates; simp

theorem applyIssueUpdates_ns (iss : Issue) (req : IssuePayload) (now : Nat) :
    (applyIssueUpdates iss req now).ns = if req.ns == "" then iss.ns else req.ns := by
  unfold applyIssueUpdates; simp

theorem applyIssueUpdates_issueType (iss : Issue) (req : IssuePayload) (now : Nat) :
    (applyIssueUpdates iss req now).issueType =
      if req.issueType == "" then iss.issueType else req.issueType := by
  unfold applyIssueUpdates; simp

theorem applyIssueUpdates_state (iss : Issue) (req : IssuePayload) (now : Nat) :
    (applyIssueUpdates iss req now).state =
      if req.state == "" then iss.state else req.state := by
  unfold applyIssueUpdates; simp

theorem applyIssueUpdates_resolvedAt (iss : Issue) (req : IssuePayload) (now : Nat) :
    (applyIssueUpdates iss req now).resolvedAt =
      if req.state == "" then iss.resolvedAt
      else if req.state == stateResolved && iss.state != stateResolved then some now
      else if req.resolvedAt != 0 then some req.resolvedAt
      else iss.resolvedAt := by
  unfold applyIssueUpdates; rw [updState_resolvedAt]; simp

@[simp] theorem updateScopeRow_id (s : IssueScope) (sp : ScopePayload) :
    (updateScopeRow s sp).id = s.id := by
  unfold updateScopeRow; dsimp only; split <;> split <;> split <;> rfl

theorem updateScopeRow_resourceType (s : IssueScope) (sp : ScopePayload) :
    (updateScopeRow s sp).resourceType =
      if sp.resourceType == "" then s.resourceType else sp.resourceType := by
  unfold updateScopeRow; dsimp only; split <;> split <;> split <;> simp_all

theorem updateScopeRow_resourceName (s : IssueScope) (sp : ScopePayload) :
    (updateScopeRow s sp).resourceName =
      if sp.resourceName == "" then s.resourceName else sp.resourceName := by
  unfold updateScopeRow; dsimp only; split <;> split <;> split <;> simp_all

theorem updateScopeRow_resourceNamespace (s : IssueScope) (sp : ScopePayload) :
    (updateScopeRow s sp).resourceNamespace =
      if sp.resourceNamespace == "" then s.resourceNamespace else sp.resourceNamespace := by
  unfold updateScopeRow; dsimp only; split <;> split <;> split <;> simp_all


theorem map_eq_self_of_eq {α : Type} (f : α → α) :
    ∀ (l : List α), (∀ a ∈ l, f a = a) → l.map f = l := by
  intro l
  induction l with
  | nil => intro _; rfl
  | cons a t ih =>
    intro h
    simp only [List.map_cons, h a (List.mem_cons_self a t)]
    rw [ih (fun x hx => h x (List.mem_cons_of_mem a hx))]

theorem updateScopeRow_empty (s : IssueScope) : updateScopeRow s emptyScopePayload = s := by
  unfold updateScopeRow emptyScopePayload
  rfl

theorem updateIssueInTx_issues (st : Store) (ex : Issue) (req : IssuePayload) (now : Nat) :
    (updateIssueInTx st ex req now).issues =
      st.issues.map (fun i => if i.id == ex.id then applyIssueUpdates i req now else i) := by
  unfold updateIssueInTx replaceIssueLinks
  dsimp only
  split <;> split <;> rfl

theorem updateIssueInTx_related (st : Store) (ex : Issue) (req : IssuePayload) (now : Nat) :
    (updateIssueInTx st ex req now).related = st.related := by
  unfold updateIssueInTx replaceIssueLinks
  dsimp only
  split <;> split <;> rfl

theorem updateIssueInTx_links (st : Store) (ex : Issue) (req : IssuePayload) (now : Nat) :
    (updateIssueInTx st ex req now).links =
      if req.links.isEmpty then st.links
      else st.links.filter (fun l => l.issueId != ex.id) ++
        ((List.range req.links.length).zip req.links).map
          (fun p => Link.mk (st.nextId + p.1) p.2.title p.2.url ex.id) := by
  unfold updateIssueInTx replaceIssueLinks
  dsimp only
  split <;> split <;> simp_all

theorem updateIssueInTx_scopes (st : Store) (ex : Issue) (req : IssuePayload) (now : Nat) :
    (updateIssueInTx st ex req now).scopes =
      st.scopes.map (fun s => if s.id == ex.scopeId then updateScopeRow s req.scope else s) := by
  unfold updateIssueInTx replaceIssueLinks
  dsimp only
  split
  · rename_i hempty
    have : ∀ s ∈ st.scopes,
        (if s.id == ex.scopeId then updateScopeRow s req.scope else s) = s := by
      intro s _
      rw [eq_of_beq hempty]
      split <;> simp [updateScopeRow_empty]
    rw [map_eq_self_of_eq _ _ this]
    split <;> rfl
  · split <;> rfl

theorem matchesDedup_iff (scopes : List IssueScope) (req : IssuePayload) (iss : Issue) :
    matchesDedup scopes req iss = true ↔
      ∃ s, scopes.find? (fun s => s.id == iss.scopeId) = some s ∧
        iss.ns = req.ns ∧ iss.issueType = req.issueType ∧
        (iss.state = stateActive ∨ iss.state = stateResolved) ∧
        s.resourceType = req.scope.resourceType ∧
        s.resourceName = req.scope.resourceName ∧
        s.resourceNamespace = req.ns := by
  unfold matchesDedup
  cases hf : scopes.find? (fun s => s.id == iss.scopeId) with
  | none => simp
  | some s =>
    simp only [hf, Option.some.injEq, Bool.and_eq_true, Bool.or_eq_true, beq_iff_eq]
    constructor
    · rintro ⟨⟨⟨⟨⟨h1, h2⟩, h3⟩, h4⟩, h5⟩, h6⟩
      exact ⟨s, rfl, h1, h2, h3, h4, h5, h6⟩
    · rintro ⟨s', hs', h1, h2, h3, h4, h5, h6⟩
      cases hs'
      exact ⟨⟨⟨⟨⟨h1, h2⟩, h3⟩, h4⟩, h5⟩, h6⟩


theorem find?_updateIssueInTx (st : Store) (ex : Issue) (req : IssuePayload) (now : Nat)
    (hnd : (st.issues.map Issue.id).Nodup) (hmem : ex ∈ st.issues) :
    (updateIssueInTx st ex req now).issues.find? (fun i => i.id == ex.id) =
      some (applyIssueUpdates ex req now) := by
  rw [updateIssueInTx_issues]
  rw [find?_map_congr (fun i => if i.id == ex.id then applyIssueUpdates i req now else i)
    (fun i => i.id == ex.id) (fun i => i.id == ex.id) st.issues
    (fun a _ => by dsimp only; split <;> simp_all [applyIssueUpdates_id])]
  rw [find?_key_self Issue.id ex st.issues hnd hmem]
  simp

/-- C10: when issue `a` exists and no self-edge on `a` is present, the engine
accepts `addRelatedIssue(a, a)` and inserts a self-edge row with source id =
target id = `a`: self-relationships are not rejected. -/
theorem C10_self_edge (st : Store) (a : Nat)
    (hex : (findByID st a).isSome)
    (hno : ∀ r ∈ st.related, ¬(r.sourceId = a ∧ r.targetId = a)) :
    addRelatedIssue st a a =
      Except.ok
        { st with
          related := st.related ++ [⟨st.nextId, a, a⟩],
          nextId := st.nextId + 1 } := by
  unfold addRelatedIssue
  obtain ⟨i, hi⟩ := Option.isSome_iff_exists.mp hex
  rw [hi]
  have hfind : st.related.find? (edgeBetween a a) = none := by
    rw [List.find?_eq_none]
    intro r hr
    unfold edgeBetween
    simp only [Bool.or_self, Bool.and_eq_true, beq_iff_eq, not_and]
    intro h1 h2
    exact absurd ⟨h1, h2⟩ (hno r hr)
  rw [hfind]
  simp

/-- C10 witness: on `storeB`, which holds issue 1 and no edges, a self-edge on
issue 1 is inserted. -/
theorem C10_witness :
    addRelatedIssue storeB 1 1 =
      Except.ok
        { storeB with
          related := storeB.related ++ [⟨storeB.nextId, 1, 1⟩],
          nextId := storeB.nextId + 1 } :=
  C10_self_edge storeB 1 (by decide) (by decide)

/-- C3 (amended): a report with no explicit state whose dedup key matches an
existing RESOLVED issue does not create a new Issue row and returns that
same issue's id, but the issue is not reopened: the persisted and returned
state remains RESOLVED (the state changes only when the report supplies an
explicit state). -/
theorem C3_amended (st : Store) (req : IssuePayload) (now : Nat) (ex : Issue)
    (hnd : (st.issues.map Issue.id).Nodup)
    (hstate : req.state = "")
    (hfound : findDuplicateInTx st req = some ex)
    (hres : ex.state = stateResolved) :
    ∃ i, (createOrUpdate st req now).1 = some i ∧ i.id = ex.id ∧
      i.state = stateResolved ∧
      (createOrUpdate st req now).2.issues.length = st.issues.length := by
  have hmem := List.mem_of_find?_eq_some hfound
  unfold createOrUpdate
  rw [hfound]
  refine ⟨applyIssueUpdates ex req now, ?_, applyIssueUpdates_id ex req now, ?_, ?_⟩
  · show findByID (updateIssueInTx st ex req now) ex.id = _
    unfold findByID
    exact find?_updateIssueInTx st ex req now hnd hmem
  · rw [applyIssueUpdates_state]
    simp [hstate, hres]
  · show (updateIssueInTx st ex req now).issues.length = st.issues.length
    rw [updateIssueInTx_issues]
    simp

/-- C3 witness: the RESOLVED issue of `storeR` matched by the stateless report
`reqA` keeps id 1, state RESOLVED, and no row is added. -/
theorem C3_witness :
    ∃ i, (createOrUpdate storeR reqA 10).1 = some i ∧ i.id = issueR.id ∧
      i.state = stateResolved ∧
      (createOrUpdate storeR reqA 10).2.issues.length = storeR.issues.length :=
  C3_amended storeR reqA 10 issueR (by decide) (by decide) (by decide) (by decide)

/-- C5 (amended): when an update supplies a state, the persisted resolved-at
becomes now whenever the issue transitions into RESOLVED from a different
state — even when the caller supplies an explicit non-zero resolution
time — and the caller-supplied time is persisted only when the update is
not such a transition. -/
theorem C5_amended (st : Store) (iss : Issue) (req : IssuePayload) (now : Nat)
    (hnd : (st.issues.map Issue.id).Nodup) (hmem : iss ∈ st.issues)
    (hstate : req.state ≠ "") :
    ((updateIssueInTx st iss req now).issues.find? (fun i => i.id == iss.id)).map
        Issue.resolvedAt =
      some (if req.state == stateResolved && iss.state != stateResolved then some now
        else if req.resolvedAt != 0 then some req.resolvedAt
        else iss.resolvedAt) := by
  rw [find?_updateIssueInTx st iss req now hnd hmem]
  simp only [Option.map_some']
  rw [applyIssueUpdates_resolvedAt]
  simp [hstate]

/-- C5 witness: resolving the ACTIVE issue of `storeB` with the explicit
resolution time 5 at now = 100 persists resolved-at 100. -/
theorem C5_witness :
    ((updateIssueInTx storeB issueB reqResolve 100).issues.find?
        (fun i => i.id == issueB.id)).map Issue.resolvedAt =
      some (if reqResolve.state == stateResolved && issueB.state != stateResolved
        then some 100
        else if reqResolve.resolvedAt != 0 then some reqResolve.resolvedAt
        else issueB.resolvedAt) :=
  C5_amended storeB issueB reqResolve 100 (by decide) (by decide) (by decide)

/-- C8: `addRelatedIssue` fails when either issue is missing; fails when an
edge already exists between the pair in either direction — in particular a
successful `addRelatedIssue(a,b)` makes the following `addRelatedIssue(b,a)`
fail — and otherwise inserts exactly one new directed edge row;
`removeRelatedIssue` fails with an error when no edge matches the pair in
either direction, and otherwise deletes the matching edge rows. -/
theorem C8_relationship_ops (st : Store) (a b : Nat) :
    ((findByID st a = none ∨ findByID st b = none) →
      ∃ e, addRelatedIssue st a b = Except.error e) ∧
    ((∃ r ∈ st.related, edgeBetween a b r = true) →
      ∃ e, addRelatedIssue st a b = Except.error e) ∧
    ((findByID st a).isSome → (findByID st b).isSome →
      (∀ r ∈ st.related, edgeBetween a b r = false) →
      addRelatedIssue st a b =
        Except.ok
          { st with
            related := st.related ++ [⟨st.nextId, a, b⟩],
            nextId := st.nextId + 1 }) ∧
    (∀ st', addRelatedIssue st a b = Except.ok st' →
      ∃ e, addRelatedIssue st' b a = Except.error e) ∧
    ((∀ r ∈ st.related, edgeBetween a b r = false) →
      ∃ e, removeRelatedIssue st a b = Except.error e) ∧
    ((∃ r ∈ st.related, edgeBetween a b r = true) →
      removeRelatedIssue st a b =
        Except.ok { st with related := st.related.filter (fun r => !(edgeBetween a b r)) }) := by
  refine ⟨?_, ?_, ?_, ?_, ?_, ?_⟩
  · intro h
    unfold addRelatedIssue
    cases hA : findByID st a with
    | none => exact ⟨_, rfl⟩
    | some iA =>
      cases hB : findByID st b with
      | none => exact ⟨_, rfl⟩
      | some iB =>
        rcases h with h | h
        · rw [hA] at h; cases h
        · rw [hB] at h; cases h
  · rintro ⟨r, hr, hedge⟩
    unfold addRelatedIssue
    cases hA : findByID st a with
    | none => exact ⟨_, rfl⟩
    | some iA =>
      cases hB : findByID st b with
      | none => exact ⟨_, rfl⟩
      | some iB =>
        have hS : (st.related.find? (edgeBetween a b)).isSome := by
          rw [List.find?_isSome]
          exact ⟨r, hr, hedge⟩
        rw [if_pos hS]
        exact ⟨_, rfl⟩
  · intro hA hB hnone
    obtain ⟨iA, hA'⟩ := Option.isSome_iff_exists.mp hA
    obtain ⟨iB, hB'⟩ := Option.isSome_iff_exists.mp hB
    unfold addRelatedIssue
    rw [hA', hB']
    have hF : st.related.find? (edgeBetween a b) = none := by
      rw [List.find?_eq_none]
      intro r hr
      simp [hnone r hr]
    rw [hF]
    simp
  · intro st' hok
    unfold addRelatedIssue at hok
    cases hA : findByID st a with
    | none => rw [hA] at hok; cases hok
    | some iA =>
      cases hB : findByID st b with
      | none => rw [hA, hB] at hok; cases hok
      | some iB =>
        rw [hA, hB] at hok
        by_cases hE : (st.related.find? (edgeBetween a b)).isSome
        · rw [if_pos hE] at hok; cases hok
        · rw [if_neg hE] at hok
          injection hok with h'
          subst h'
          unfold addRelatedIssue
          have hB2 : findByID
              { st with
                related := st.related ++ [⟨st.nextId, a, b⟩],
                nextId := st.nextId + 1 } b = some iB := hB
          have hA2 : findByID
              { st with
                related := st.related ++ [⟨st.nextId, a, b⟩],
                nextId := st.nextId + 1 } a = some iA := hA
          rw [hB2, hA2]
          have hS : ((st.related ++ [(⟨st.nextId, a, b⟩ : RelatedIssue)]).find?
              (edgeBetween b a)).isSome := by
            rw [List.find?_isSome]
            refine ⟨⟨st.nextId, a, b⟩, List.mem_append_right _ (List.mem_singleton.mpr rfl), ?_⟩
            unfold edgeBetween
            simp
          rw [if_pos hS]
          exact ⟨_, rfl⟩
  · intro hnone
    unfold removeRelatedIssue
    have hself : st.related.filter (fun r => !(edgeBetween a b r)) = st.related := by
      rw [List.filter_eq_self]
      intro r hr
      simp [hnone r hr]
    rw [hself]
    simp
  · rintro ⟨r, hr, hedge⟩
    unfold removeRelatedIssue
    have hlt : (st.related.filter (fun r => !(edgeBetween a b r))).length <
        st.related.length := by
      apply List.length_filter_lt_length_iff_exists.mpr
      exact ⟨r, hr, by simp [hedge]⟩
    have hne : ((st.related.filter (fun r => !(edgeBetween a b r))).length ==
        st.related.length) = false := by
      simpa using Nat.ne_of_lt hlt
    dsimp only
    rw [hne]
    simp

/-- C8 witness: on `storeC` (issues 1 and 3, no edges) the add succeeds with
exactly one new edge row, a reversed re-add fails, and removing a
nonexistent edge fails. -/
theorem C8_witness :
    (addRelatedIssue storeC 1 3 =
      Except.ok
        { storeC with
          related := storeC.related ++ [⟨storeC.nextId, 1, 3⟩],
          nextId := storeC.nextId + 1 }) ∧
    (∃ e, addRelatedIssue
      { storeC with
        related := storeC.related ++ [⟨storeC.nextId, 1, 3⟩],
        nextId := storeC.nextId + 1 } 3 1 = Except.error e) ∧
    (∃ e, removeRelatedIssue storeC 1 3 = Except.error e) :=
  ⟨(C8_relationship_ops storeC 1 3).2.2.1 (by decide) (by decide) (by decide),
   (C8_relationship_ops storeC 1 3).2.2.2.1 _
     ((C8_relationship_ops storeC 1 3).2.2.1 (by decide) (by decide) (by decide)),
   (C8_relationship_ops storeC 1 3).2.2.2.2.1 (by decide)⟩

/-- C7: deleting an existing issue removes, within the one transaction, every
RelatedIssue edge incident to it, every Link it owns, the Issue row and its
Scope row, while every other row survives, and no orphaned Scope row or
dangling edge remains; deleting a non-existent id fails with an error (the
store is returned unchanged by construction of the error path). -/
theorem C7_delete (st : Store) (idv : Nat)
    (hnd : (st.issues.map Issue.id).Nodup)
    (hedges : ∀ r ∈ st.related,
      (∃ i ∈ st.issues, i.id = r.sourceId) ∧ ∃ i ∈ st.issues, i.id = r.targetId)
    (hscopes : ∀ s ∈ st.scopes, ∃ i ∈ st.issues, i.scopeId = s.id) :
    (findByID st idv = none → ∃ e, deleteIssue st idv = Except.error e) ∧
    (∀ iss, findByID st idv = some iss →
      ∃ st', deleteIssue st idv = Except.ok st' ∧
        (∀ r ∈ st'.related, r.sourceId ≠ idv ∧ r.targetId ≠ idv) ∧
        (∀ l ∈ st'.links, l.issueId ≠ idv) ∧
        (∀ i ∈ st'.issues, i.id ≠ idv) ∧
        (∀ s ∈ st'.scopes, s.id ≠ iss.scopeId) ∧
        (∀ i ∈ st.issues, i.id ≠ idv → i ∈ st'.issues) ∧
        (∀ l ∈ st.links, l.issueId ≠ idv → l ∈ st'.links) ∧
        (∀ r ∈ st.related, r.sourceId ≠ idv → r.targetId ≠ idv → r ∈ st'.related) ∧
        (∀ s ∈ st.scopes, s.id ≠ iss.scopeId → s ∈ st'.scopes) ∧
        (∀ s ∈ st'.scopes, ∃ i ∈ st'.issues, i.scopeId = s.id) ∧
        (∀ r ∈ st'.related,
          (∃ i ∈ st'.issues, i.id = r.sourceId) ∧ ∃ i ∈ st'.issues, i.id = r.targetId)) := by
  constructor
  · intro hnone
    unfold deleteIssue
    rw [hnone]
    exact ⟨_, rfl⟩
  · intro iss hfound
    have hissmem : iss ∈ st.issues := List.mem_of_find?_eq_some hfound
    have hissid : iss.id = idv := by
      have := List.find?_some hfound
      simpa using this
    unfold deleteIssue
    rw [hfound]
    refine ⟨_, rfl, ?_, ?_, ?_, ?_, ?_, ?_, ?_, ?_, ?_, ?_⟩
    · intro r hr
      have h2 := (List.mem_filter.mp hr).2
      simp only [Bool.not_eq_eq_eq_not, Bool.not_true, Bool.or_eq_false_iff] at h2
      constructor
      · intro he; rw [he] at h2; simp at h2
      · intro he; rw [he] at h2; simp at h2
    · intro l hl
      have h2 := (List.mem_filter.mp hl).2
      intro he; rw [he] at h2; simp at h2
    · intro i hi
      have h2 := (List.mem_filter.mp hi).2
      intro he; rw [he] at h2; simp at h2
    · intro s hs
      have h2 := (List.mem_filter.mp hs).2
      intro he; rw [he] at h2; simp at h2
    · intro i hi hne
      refine List.mem_filter.mpr ⟨hi, by simpa using hne⟩
    · intro l hl hne
      refine List.mem_filter.mpr ⟨hl, by simpa using hne⟩
    · intro r hr hne1 hne2
      refine List.mem_filter.mpr ⟨hr, by simp [hne1, hne2]⟩
    · intro s hs hne
      refine List.mem_filter.mpr ⟨hs, by simpa using hne⟩
    · intro s hs
      obtain ⟨hsmem, hspred⟩ := List.mem_filter.mp hs
      obtain ⟨i, hi, hisc⟩ := hscopes s hsmem
      have hine : i.id ≠ idv := by
        intro he
        have hieq : i = iss :=
          List.inj_on_of_nodup_map hnd hi hissmem (by rw [he, hissid])
        rw [hieq] at hisc
        rw [← hisc] at hspred
        simp at hspred
      exact ⟨i, List.mem_filter.mpr ⟨hi, by simpa using hine⟩, hisc⟩
    · intro r hr
      obtain ⟨hrmem, hrpred⟩ := List.mem_filter.mp hr
      simp only [Bool.not_eq_eq_eq_not, Bool.not_true, Bool.or_eq_false_iff] at hrpred
      obtain ⟨⟨i1, hi1, hid1⟩, ⟨i2, hi2, hid2⟩⟩ := hedges r hrmem
      constructor
      · refine ⟨i1, List.mem_filter.mpr ⟨hi1, ?_⟩, hid1⟩
        rw [hid1]
        simpa using (by simpa using hrpred.1 : r.sourceId ≠ idv)
      · refine ⟨i2, List.mem_filter.mpr ⟨hi2, ?_⟩, hid2⟩
        rw [hid2]
        simpa using (by simpa using hrpred.2 : r.targetId ≠ idv)

/-- C7 witness: on `storeD`, deleting the missing id 99 errors, and deleting
issue 1 removes its link, its edge, its row and its scope. -/
theorem C7_witness :
    (∃ e, deleteIssue storeD 99 = Except.error e) ∧
    (∃ st', deleteIssue storeD 1 = Except.ok st' ∧
      (∀ l ∈ st'.links, l.issueId ≠ 1) ∧
      (∀ i ∈ st'.issues, i.id ≠ 1) ∧
      (∀ s ∈ st'.scopes, s.id ≠ issueB.scopeId) ∧
      (∀ r ∈ st'.related, r.sourceId ≠ 1 ∧ r.targetId ≠ 1)) := by
  constructor
  · exact (C7_delete storeD 99 (by decide) (by decide) (by decide)).1 (by decide)
  · obtain ⟨st', h0, h1, h2, h3, h4, _⟩ :=
      (C7_delete storeD 1 (by decide) (by decide) (by decide)).2 issueB (by decide)
    exact ⟨st', h0, h2, h3, h4, h1⟩


/-- C6: `ResolveByScope` returns the number k of ACTIVE issues of the
namespace whose scope matches the resource type and name, sets exactly those
issues to RESOLVED with the single timestamp as resolved-at and updated-at,
leaves every other issue (including already-RESOLVED ones) and every other
table unchanged, and when no issue matches it returns 0 with the store
untouched (no error). -/
theorem C6_resolveByScope (st : Store) (rt rn nsv : String) (now : Nat)
    (hnd : (st.issues.map Issue.id).Nodup) :
    (resolveByScope st rt rn nsv now).1 =
      (st.issues.filter (matchesResolveScope st.scopes rt rn nsv)).length ∧
    (resolveByScope st rt rn nsv now).2.issues =
      st.issues.map (fun i =>
        if matchesResolveScope st.scopes rt rn nsv i then
          { i with state := stateResolved, resolvedAt := some now, updatedAt := now }
        else i) ∧
    (resolveByScope st rt rn nsv now).2.scopes = st.scopes ∧
    (resolveByScope st rt rn nsv now).2.links = st.links ∧
    (resolveByScope st rt rn nsv now).2.related = st.related ∧
    ((st.issues.filter (matchesResolveScope st.scopes rt rn nsv)).length = 0 →
      (resolveByScope st rt rn nsv now).2 = st) := by
  have hpt : ∀ i ∈ st.issues,
      (((st.issues.filter (matchesResolveScope st.scopes rt rn nsv)).map
        Issue.id).contains i.id) = matchesResolveScope st.scopes rt rn nsv i := by
    intro i hi
    by_cases hpi : matchesResolveScope st.scopes rt rn nsv i = true
    · rw [hpi]
      have h1 : i ∈ st.issues.filter (matchesResolveScope st.scopes rt rn nsv) :=
        List.mem_filter.mpr ⟨hi, hpi⟩
      simp [List.mem_map_of_mem Issue.id h1]
    · rw [Bool.not_eq_true] at hpi
      rw [hpi]
      have h2 : ¬ i.id ∈ (st.issues.filter
          (matchesResolveScope st.scopes rt rn nsv)).map Issue.id := by
        intro hmem
        obtain ⟨j, hj, hij⟩ := List.mem_map.mp hmem
        obtain ⟨hjmem, hjp⟩ := List.mem_filter.mp hj
        have hji : j = i := List.inj_on_of_nodup_map hnd hjmem hi hij
        rw [hji, hpi] at hjp
        cases hjp
      simp [h2]
  by_cases hE : ((st.issues.filter
      (matchesResolveScope st.scopes rt rn nsv)).map Issue.id).isEmpty = true
  · have hnil : st.issues.filter (matchesResolveScope st.scopes rt rn nsv) = [] :=
      List.map_eq_nil_iff.mp (List.isEmpty_iff.mp hE)
    have hall := List.filter_eq_nil_iff.mp hnil
    have hres : resolveByScope st rt rn nsv now = (0, st) := by
      unfold resolveByScope
      dsimp only
      rw [hE]
      rfl
    rw [hres]
    exact ⟨by rw [hnil]; rfl,
      (map_eq_self_of_eq _ _ (fun i hi => by rw [if_neg (fun hc => hall i hi hc)])).symm,
      rfl, rfl, rfl, fun _ => rfl⟩
  · rw [Bool.not_eq_true] at hE
    have hres : resolveByScope st rt rn nsv now =
        ((st.issues.filter (matchesResolveScope st.scopes rt rn nsv)).length,
         { st with issues := st.issues.map (fun i =>
            if matchesResolveScope st.scopes rt rn nsv i then
              { i with state := stateResolved, resolvedAt := some now, updatedAt := now }
            else i) }) := by
      unfold resolveByScope
      dsimp only
      rw [hE]
      simp only [Bool.false_eq_true, if_false]
      rw [List.filter_congr hpt]
      have hmap := List.map_congr_left
        (f := fun i => if ((st.issues.filter
            (matchesResolveScope st.scopes rt rn nsv)).map Issue.id).contains i.id then
          { i with state := stateResolved, resolvedAt := some now, updatedAt := now }
        else i)
        (g := fun i => if matchesResolveScope st.scopes rt rn nsv i then
          { i with state := stateResolved, resolvedAt := some now, updatedAt := now }
        else i)
        (l := st.issues) (fun i hi => by dsimp only; rw [hpt i hi])
      rw [hmap]
    rw [hres]
    refine ⟨rfl, rfl, rfl, rfl, rfl, ?_⟩
    intro hlen
    exfalso
    have hnil := List.length_eq_zero.mp hlen
    rw [hnil] at hE
    simp at hE

/-- C6 witness: on `storeC` exactly the matching ACTIVE issue 1 is resolved
(k = 1), issue 3 with a different scope is untouched. -/
theorem C6_witness :
    (resolveByScope storeC "component" "comp" "team-a" 50).1 =
      (storeC.issues.filter
        (matchesResolveScope storeC.scopes "component" "comp" "team-a")).length ∧
    (resolveByScope storeC "component" "comp" "team-a" 50).2.issues =
      storeC.issues.map (fun i =>
        if matchesResolveScope storeC.scopes "component" "comp" "team-a" i then
          { i with state := stateResolved, resolvedAt := some 50, updatedAt := 50 }
        else i) ∧
    (resolveByScope storeC "component" "comp" "team-a" 50).2.scopes = storeC.scopes ∧
    (resolveByScope storeC "component" "comp" "team-a" 50).2.links = storeC.links ∧
    (resolveByScope storeC "component" "comp" "team-a" 50).2.related = storeC.related ∧
    ((storeC.issues.filter
        (matchesResolveScope storeC.scopes "component" "comp" "team-a")).length = 0 →
      (resolveByScope storeC "component" "comp" "team-a" 50).2 = storeC) :=
  C6_resolveByScope storeC "component" "comp" "team-a" 50 (by decide)


theorem updTitle_of_ne (req : IssuePayload) (iss : Issue) (h : req.title ≠ "") :
    updTitle req iss = { iss with title := req.title } := by
  unfold updTitle
  rw [if_neg]
  simpa using h

theorem updDescription_of_empty (req : IssuePayload) (iss : Issue) (h : req.description = "") :
    updDescription req iss = iss := by
  unfold updDescription
  rw [if_pos]
  simpa using h

theorem updSeverity_of_empty (req : IssuePayload) (iss : Issue) (h : req.severity = "") :
    updSeverity req iss = iss := by
  unfold updSeverity
  rw [if_pos]
  simpa using h

theorem updIssueType_of_empty (req : IssuePayload) (iss : Issue) (h : req.issueType = "") :
    updIssueType req iss = iss := by
  unfold updIssueType
  rw [if_pos]
  simpa using h

theorem updNamespace_of_empty (req : IssuePayload) (iss : Issue) (h : req.ns = "") :
    updNamespace req iss = iss := by
  unfold updNamespace
  rw [if_pos]
  simpa using h

theorem updState_of_empty (req : IssuePayload) (now : Nat) (s : String) (iss : Issue)
    (h : req.state = "") : updState req now s iss = iss := by
  unfold updState
  rw [if_pos]
  simpa using h

/-- C9: an update supplying only a non-empty title rewrites exactly that
issue's title and updated-at, leaving its other fields, every other issue,
and the links, scopes and related tables untouched; and an update supplying
a non-empty links array replaces the issue's entire link set by exactly the
supplied links (projected to title/URL, in order, no merge and no dedup),
leaving other issues' links unchanged. -/
theorem C9_sparse_update (st : Store) (iss : Issue) (req : IssuePayload) (now : Nat)
    (hnd : (st.issues.map Issue.id).Nodup) (hmem : iss ∈ st.issues) :
    ((req.title ≠ "" ∧ req.description = "" ∧ req.severity = "" ∧ req.issueType = "" ∧
      req.ns = "" ∧ req.state = "" ∧ req.scope = emptyScopePayload ∧ req.links = []) →
      (updateIssueInTx st iss req now).issues.find? (fun i => i.id == iss.id) =
        some { iss with title := req.title, updatedAt := now } ∧
      (∀ i ∈ st.issues, i.id ≠ iss.id → i ∈ (updateIssueInTx st iss req now).issues) ∧
      (updateIssueInTx st iss req now).links = st.links ∧
      (updateIssueInTx st iss req now).scopes = st.scopes ∧
      (updateIssueInTx st iss req now).related = st.related) ∧
    (req.links ≠ [] →
      ((updateIssueInTx st iss req now).links.filter (fun l => l.issueId == iss.id)).map
          (fun l => (l.title, l.url)) = req.links.map (fun lp => (lp.title, lp.url)) ∧
      (updateIssueInTx st iss req now).links.filter (fun l => l.issueId != iss.id) =
        st.links.filter (fun l => l.issueId != iss.id)) := by
  constructor
  · rintro ⟨htitle, hdesc, hsev, htyp, hns, hstate, hscope, hlinks⟩
    have happly : applyIssueUpdates iss req now =
        { iss with title := req.title, updatedAt := now } := by
      unfold applyIssueUpdates
      rw [updTitle_of_ne req iss htitle, updDescription_of_empty req _ hdesc,
        updSeverity_of_empty req _ hsev, updIssueType_of_empty req _ htyp,
        updNamespace_of_empty req _ hns, updState_of_empty req now _ _ hstate]
      rfl
    refine ⟨?_, ?_, ?_, ?_, updateIssueInTx_related st iss req now⟩
    · rw [find?_updateIssueInTx st iss req now hnd hmem, happly]
    · intro i hi hne
      rw [updateIssueInTx_issues]
      refine List.mem_map.mpr ⟨i, hi, ?_⟩
      have hf : (i.id == iss.id) = false := by simpa using hne
      simp [hf]
    · rw [updateIssueInTx_links]
      simp [hlinks]
    · rw [updateIssueInTx_scopes]
      exact map_eq_self_of_eq _ _ (fun s _ => by
        rw [hscope]
        split <;> simp [updateScopeRow_empty])
  · intro hlinks
    have hlE : req.links.isEmpty = false := by
      cases hl : req.links with
      | nil => exact absurd hl hlinks
      | cons a t => rfl
    rw [updateIssueInTx_links, hlE]
    simp only [Bool.false_eq_true, if_false]
    have hkept : ∀ l ∈ st.links.filter (fun l => l.issueId != iss.id),
        (l.issueId == iss.id) = false := by
      intro l hl
      have h2 := (List.mem_filter.mp hl).2
      simpa using h2
    have hnewmem : ∀ l ∈ ((List.range req.links.length).zip req.links).map
        (fun p => Link.mk (st.nextId + p.1) p.2.title p.2.url iss.id),
        l.issueId = iss.id := by
      intro l hl
      obtain ⟨p, _, hp⟩ := List.mem_map.mp hl
      rw [← hp]
    constructor
    · rw [List.filter_append]
      have h1 : (st.links.filter (fun l => l.issueId != iss.id)).filter
          (fun l => l.issueId == iss.id) = [] := by
        rw [List.filter_eq_nil_iff]
        intro l hl
        rw [hkept l hl]
        simp
      have h2 : (((List.range req.links.length).zip req.links).map
          (fun p => Link.mk (st.nextId + p.1) p.2.title p.2.url iss.id)).filter
          (fun l => l.issueId == iss.id) =
          ((List.range req.links.length).zip req.links).map
          (fun p => Link.mk (st.nextId + p.1) p.2.title p.2.url iss.id) := by
        rw [List.filter_eq_self]
        intro l hl
        rw [hnewmem l hl]
        simp
      rw [h1, h2, List.nil_append, List.map_map]
      have hsnd : ((List.range req.links.length).zip req.links).map Prod.snd = req.links :=
        List.map_snd_zip _ _ (by simp)
      calc ((List.range req.links.length).zip req.links).map
            ((fun l => (l.title, l.url)) ∘ (fun p => Link.mk (st.nextId + p.1) p.2.title p.2.url iss.id))
          = ((List.range req.links.length).zip req.links).map
            ((fun lp => (lp.title, lp.url)) ∘ Prod.snd) := rfl
        _ = (((List.range req.links.length).zip req.links).map Prod.snd).map
            (fun lp => (lp.title, lp.url)) := by rw [List.map_map]
        _ = req.links.map (fun lp => (lp.title, lp.url)) := by rw [hsnd]
    · rw [List.filter_append]
      have h1 : (st.links.filter (fun l => l.issueId != iss.id)).filter
          (fun l => l.issueId != iss.id) = st.links.filter (fun l => l.issueId != iss.id) := by
        rw [List.filter_eq_self]
        intro l hl
        exact (List.mem_filter.mp hl).2
      have h2 : (((List.range req.links.length).zip req.links).map
          (fun p => Link.mk (st.nextId + p.1) p.2.title p.2.url iss.id)).filter
          (fun l => l.issueId != iss.id) = [] := by
        rw [List.filter_eq_nil_iff]
        intro l hl
        rw [hnewmem l hl]
        simp
      rw [h1, h2, List.append_nil]

/-- C9 witness: on `storeD`, a title-only update touches only issue 1's title
and updated-at, and a links update replaces issue 1's link set with exactly
the two supplied links. -/
theorem C9_witness :
    ((updateIssueInTx storeD issueB reqTitle 60).issues.find? (fun i => i.id == issueB.id) =
      some { issueB with title := reqTitle.title, updatedAt := 60 } ∧
     (updateIssueInTx storeD issueB reqTitle 60).links = storeD.links ∧
     (updateIssueInTx storeD issueB reqTitle 60).scopes = storeD.scopes) ∧
    ((updateIssueInTx storeD issueB reqLinks 61).links.filter
        (fun l => l.issueId == issueB.id)).map (fun l => (l.title, l.url)) =
      reqLinks.links.map (fun lp => (lp.title, lp.url)) := by
  have h1 := (C9_sparse_update storeD issueB reqTitle 60 (by decide) (by decide)).1
    (by refine ⟨?_, rfl, rfl, rfl, rfl, rfl, rfl, rfl⟩; decide)
  have h2 := (C9_sparse_update storeD issueB reqLinks 61 (by decide) (by decide)).2
    (by decide)
  exact ⟨⟨h1.1, h1.2.2.1, h1.2.2.2.1⟩, h2.1⟩


/-- C4 (amended): the duplicate check returns an issue exactly when a stored
issue agrees with the report on namespace and issue type, is ACTIVE or
RESOLVED, and its scope row agrees on resource type and resource name while
its resource namespace equals the report's namespace field (not the
report's scope resource namespace). -/
theorem C4_amended (st : Store) (req : IssuePayload)
    (hnd : (st.scopes.map IssueScope.id).Nodup) :
    (∀ i, findDuplicateInTx st req = some i →
      i ∈ st.issues ∧ ∃ s ∈ st.scopes, s.id = i.scopeId ∧
        i.ns = req.ns ∧ i.issueType = req.issueType ∧
        (i.state = stateActive ∨ i.state = stateResolved) ∧
        s.resourceType = req.scope.resourceType ∧
        s.resourceName = req.scope.resourceName ∧
        s.resourceNamespace = req.ns) ∧
    ((∃ i ∈ st.issues, ∃ s ∈ st.scopes, s.id = i.scopeId ∧
        i.ns = req.ns ∧ i.issueType = req.issueType ∧
        (i.state = stateActive ∨ i.state = stateResolved) ∧
        s.resourceType = req.scope.resourceType ∧
        s.resourceName = req.scope.resourceName ∧
        s.resourceNamespace = req.ns) →
      (findDuplicateInTx st req).isSome) := by
  constructor
  · intro i hfind
    have hmem : i ∈ st.issues := List.mem_of_find?_eq_some hfind
    have hmatch : matchesDedup st.scopes req i = true := List.find?_some hfind
    obtain ⟨s, hsfind, h1, h2, h3, h4, h5, h6⟩ := (matchesDedup_iff _ _ _).mp hmatch
    have hsmem : s ∈ st.scopes := List.mem_of_find?_eq_some hsfind
    have hsid : s.id = i.scopeId := by simpa using List.find?_some hsfind
    exact ⟨hmem, s, hsmem, hsid, h1, h2, h3, h4, h5, h6⟩
  · rintro ⟨i, hi, s, hs, hsid, h1, h2, h3, h4, h5, h6⟩
    unfold findDuplicateInTx
    rw [List.find?_isSome]
    refine ⟨i, hi, ?_⟩
    rw [matchesDedup_iff]
    refine ⟨s, ?_, h1, h2, h3, h4, h5, h6⟩
    rw [← hsid]
    exact find?_key_self IssueScope.id s st.scopes hnd hs

/-- C4 witness: on `storeR` the duplicate check finds the RESOLVED issue whose
scope's resource namespace equals the report's namespace. -/
theorem C4_witness : (findDuplicateInTx storeR reqA).isSome =
    true :=
  (C4_amended storeR reqA (by decide)).2 (by decide)

theorem createNewIssueInTx_fst (st : Store) (req : IssuePayload) (now : Nat) :
    (createNewIssueInTx st req now).1 = createdIssue st req now := rfl

theorem createNewIssueInTx_snd_issues (st : Store) (req : IssuePayload) (now : Nat) :
    (createNewIssueInTx st req now).2.issues = st.issues ++ [createdIssue st req now] := rfl

theorem createNewIssueInTx_snd_scopes (st : Store) (req : IssuePayload) (now : Nat) :
    (createNewIssueInTx st req now).2.scopes = st.scopes ++ [createdScope st req] := rfl

theorem find?_append_none_left {α : Type} (l1 l2 : List α) (p : α → Bool)
    (h : ∀ x ∈ l1, p x = false) : (l1 ++ l2).find? p = l2.find? p := by
  rw [List.find?_append, List.find?_eq_none.mpr (fun x hx => by simp [h x hx])]
  rfl

theorem find?_append_right_none {α : Type} (l1 l2 : List α) (p : α → Bool)
    (h : ∀ x ∈ l2, p x = false) : (l1 ++ l2).find? p = l1.find? p := by
  rw [List.find?_append,
    show List.find? p l2 = none from List.find?_eq_none.mpr (fun x hx => by simp [h x hx])]
  cases l1.find? p <;> rfl

theorem matchesDedup_congr (scopes1 scopes2 : List IssueScope) (req : IssuePayload)
    (i : Issue)
    (h : scopes1.find? (fun s => s.id == i.scopeId) =
      scopes2.find? (fun s => s.id == i.scopeId)) :
    matchesDedup scopes1 req i = matchesDedup scopes2 req i := by
  unfold matchesDedup
  rw [h]

theorem createOrUpdate_base (req : IssuePayload) (st : Store) (now : Nat)
    (hstate : req.state = "" ∨ req.state = stateActive ∨ req.state = stateResolved)
    (hrns : req.scope.resourceNamespace = "" ∨ req.scope.resourceNamespace = req.ns)
    (hnd : (st.issues.map Issue.id).Nodup)
    (hsnd : (st.issues.map Issue.scopeId).Nodup)
    (hscnd : (st.scopes.map IssueScope.id).Nodup)
    (hfresh1 : ∀ i ∈ st.issues, i.id < st.nextId)
    (hfresh2 : ∀ i ∈ st.issues, i.scopeId < st.nextId)
    (hfresh3 : ∀ s ∈ st.scopes, s.id < st.nextId)
    (hnone : findDuplicateInTx st req = none)
    (hnoscope : ∀ s ∈ st.scopes, scopeTripleFor req s = false) :
    (createOrUpdate st req now).1 = some (createdIssue st req now) ∧
    SeqInv req (st.nextId + 1) st.nextId (createOrUpdate st req now).2 ∧
    (createOrUpdate st req now).2.issues.length = st.issues.length + 1 ∧
    (createOrUpdate st req now).2.scopes.length = st.scopes.length + 1 := by
  have hnomatch : ∀ i ∈ st.issues, matchesDedup st.scopes req i = false := by
    intro i hi
    simpa using List.find?_eq_none.mp hnone i hi
  have hlookold : ∀ t : Nat, t < st.nextId →
      (st.scopes ++ [createdScope st req]).find? (fun s => s.id == t) =
        st.scopes.find? (fun s => s.id == t) := by
    intro t ht
    refine find?_append_right_none _ _ _ ?_
    intro s hs
    rw [List.mem_singleton.mp hs]
    have : st.nextId ≠ t := by omega
    simpa [createdScope] using this
  have hlooknew : (st.scopes ++ [createdScope st req]).find?
      (fun s => s.id == st.nextId) = some (createdScope st req) := by
    rw [find?_append_none_left _ _ _ (fun s hs => by
      have := hfresh3 s hs
      have h2 : s.id ≠ st.nextId := by omega
      simpa using h2)]
    exact List.find?_cons_of_pos _ (by simp [createdScope])
  have hnewtriple : scopeTripleFor req (createdScope st req) = true := by
    unfold scopeTripleFor createdScope
    dsimp only
    rcases hrns with h | h <;> simp [h]
  have hnewmatch : matchesDedup (st.scopes ++ [createdScope st req]) req
      (createdIssue st req now) = true := by
    rw [matchesDedup_iff]
    refine ⟨createdScope st req, hlooknew, rfl, rfl, ?_, rfl, rfl, ?_⟩
    · show (if req.state == "" then stateActive else req.state) = stateActive ∨
        (if req.state == "" then stateActive else req.state) = stateResolved
      rcases hstate with h | h | h <;> simp [h, stateActive, stateResolved]
    · show (if req.scope.resourceNamespace == "" then req.ns
        else req.scope.resourceNamespace) = req.ns
      rcases hrns with h | h <;> simp [h]
  have holdfalse : ∀ i ∈ st.issues,
      matchesDedup (st.scopes ++ [createdScope st req]) req i = false := by
    intro i hi
    rw [matchesDedup_congr _ st.scopes req i (hlookold i.scopeId (hfresh2 i hi))]
    exact hnomatch i hi
  have hfind2 : findDuplicateInTx (createNewIssueInTx st req now).2 req =
      some (createdIssue st req now) := by
    unfold findDuplicateInTx
    rw [createNewIssueInTx_snd_issues, createNewIssueInTx_snd_scopes]
    rw [find?_append_none_left _ _ _ holdfalse]
    exact List.find?_cons_of_pos _ hnewmatch
  have hret : findByID (createNewIssueInTx st req now).2 (st.nextId + 1) =
      some (createdIssue st req now) := by
    unfold findByID
    rw [createNewIssueInTx_snd_issues]
    rw [find?_append_none_left _ _ _ (fun i hi => by
      have := hfresh1 i hi
      have h2 : i.id ≠ st.nextId + 1 := by omega
      simpa using h2)]
    exact List.find?_cons_of_pos _ (by simp [createdIssue])
  have hco : createOrUpdate st req now =
      (findByID (createNewIssueInTx st req now).2 (createNewIssueInTx st req now).1.id,
       (createNewIssueInTx st req now).2) := by
    unfold createOrUpdate
    rw [hnone]
  rw [hco]
  refine ⟨hret, ⟨?_, ?_, ?_, ⟨createdIssue st req now, hfind2, rfl, rfl⟩, ?_, ?_, ?_⟩,
    ?_, ?_⟩
  · rw [createNewIssueInTx_snd_issues, List.map_append, List.nodup_append]
    refine ⟨hnd, List.nodup_singleton _, ?_⟩
    intro x hx hx2
    obtain ⟨i, hi, rfl⟩ := List.mem_map.mp hx
    have h1 := hfresh1 i hi
    have h2 : Issue.id i = (createdIssue st req now).id := by simpa using hx2
    rw [show (createdIssue st req now).id = st.nextId + 1 from rfl] at h2
    omega
  · rw [createNewIssueInTx_snd_issues, List.map_append, List.nodup_append]
    refine ⟨hsnd, List.nodup_singleton _, ?_⟩
    intro x hx hx2
    obtain ⟨i, hi, rfl⟩ := List.mem_map.mp hx
    have h1 := hfresh2 i hi
    have h2 : Issue.scopeId i = (createdIssue st req now).scopeId := by simpa using hx2
    rw [show (createdIssue st req now).scopeId = st.nextId from rfl] at h2
    omega
  · rw [createNewIssueInTx_snd_scopes, List.map_append, List.nodup_append]
    refine ⟨hscnd, List.nodup_singleton _, ?_⟩
    intro x hx hx2
    obtain ⟨s, hs, rfl⟩ := List.mem_map.mp hx
    have h1 := hfresh3 s hs
    have h2 : IssueScope.id s = (createdScope st req).id := by simpa using hx2
    rw [show (createdScope st req).id = st.nextId from rfl] at h2
    omega
  · rw [createNewIssueInTx_snd_issues, createNewIssueInTx_snd_scopes, List.filter_append]
    rw [List.filter_eq_nil_iff.mpr (fun i hi => by simp [holdfalse i hi])]
    simp [hnewmatch]
  · rw [createNewIssueInTx_snd_scopes, List.filter_append]
    rw [List.filter_eq_nil_iff.mpr (fun s hs => by simp [hnoscope s hs])]
    simp [hnewtriple]
  · rw [createNewIssueInTx_snd_scopes]
    intro s hs htrip
    rcases List.mem_append.mp hs with h | h
    · rw [hnoscope s h] at htrip
      cases htrip
    · rw [List.mem_singleton.mp h]
      rfl
  · rw [createNewIssueInTx_snd_issues, List.length_append]
    rfl
  · rw [createNewIssueInTx_snd_scopes, List.length_append]
    rfl

theorem createOrUpdate_step (req : IssuePayload) (i0 s0 : Nat) (st : Store) (now : Nat)
    (hstate : req.state = "" ∨ req.state = stateActive ∨ req.state = stateResolved)
    (hrns : req.scope.resourceNamespace = "" ∨ req.scope.resourceNamespace = req.ns)
    (hinv : SeqInv req i0 s0 st) :
    ∃ i, (createOrUpdate st req now).1 = some i ∧ i.id = i0 ∧
      SeqInv req i0 s0 (createOrUpdate st req now).2 ∧
      (createOrUpdate st req now).2.issues.length = st.issues.length ∧
      (createOrUpdate st req now).2.scopes.length = st.scopes.length := by
  obtain ⟨hnd, hsnd, hscnd, ⟨j, hfind, hjid, hjsid⟩, hcount, hscount, hsid⟩ := hinv
  have hjmem : j ∈ st.issues := List.mem_of_find?_eq_some hfind
  have hjmatch : matchesDedup st.scopes req j = true := List.find?_some hfind
  obtain ⟨sj, hsjfind, hjns, hjtype, hjstate, hsjrt, hsjrn, hsjrns⟩ :=
    (matchesDedup_iff _ _ _).mp hjmatch
  have hsjmem : sj ∈ st.scopes := List.mem_of_find?_eq_some hsjfind
  have hsjid : sj.id = j.scopeId := by simpa using List.find?_some hsjfind
  have hg_id : ∀ i : Issue,
      ((if i.id == j.id then applyIssueUpdates i req now else i) : Issue).id = i.id := by
    intro i
    split
    · rw [applyIssueUpdates_id]
    · rfl
  have hg_sid : ∀ i : Issue,
      ((if i.id == j.id then applyIssueUpdates i req now else i) : Issue).scopeId =
        i.scopeId := by
    intro i
    split
    · rw [applyIssueUpdates_scopeId]
    · rfl
  have hgs_id : ∀ s : IssueScope,
      ((if s.id == j.scopeId then updateScopeRow s req.scope else s) : IssueScope).id =
        s.id := by
    intro s
    split
    · rw [updateScopeRow_id]
    · rfl
  have hlook : ∀ t : Nat,
      (st.scopes.map (fun s => if s.id == j.scopeId then updateScopeRow s req.scope else s)).find?
          (fun s => s.id == t) =
        (st.scopes.find? (fun s => s.id == t)).map
          (fun s => if s.id == j.scopeId then updateScopeRow s req.scope else s) := by
    intro t
    exact find?_map_congr _ _ _ st.scopes (fun s _ => by simp only [hgs_id s])
  have hsjtriple : scopeTripleFor req sj = true := by
    unfold scopeTripleFor
    simp [hsjrt, hsjrn, hsjrns]
  have hupdtriple : scopeTripleFor req (updateScopeRow sj req.scope) = true := by
    unfold scopeTripleFor
    rw [updateScopeRow_resourceType, updateScopeRow_resourceName,
      updateScopeRow_resourceNamespace]
    rcases hrns with h | h <;> simp [hsjrt, hsjrn, hsjrns, h]
  have hgs_triple : ∀ s ∈ st.scopes,
      scopeTripleFor req ((if s.id == j.scopeId then updateScopeRow s req.scope else s) :
        IssueScope) = scopeTripleFor req s := by
    intro s hs
    split
    · rename_i hseq
      have hseq2 : s.id = sj.id := by
        rw [hsjid]
        simpa using hseq
      have hssj : s = sj := List.inj_on_of_nodup_map hscnd hs hsjmem hseq2
      rw [hssj, hupdtriple, hsjtriple]
    · rfl
  have hg_match : ∀ i ∈ st.issues,
      matchesDedup
          (st.scopes.map (fun s => if s.id == j.scopeId then updateScopeRow s req.scope else s))
          req ((if i.id == j.id then applyIssueUpdates i req now else i) : Issue) =
        matchesDedup st.scopes req i := by
    intro i hi
    split
    · rename_i hieq
      have hieq2 : i = j := List.inj_on_of_nodup_map hnd hi hjmem (by simpa using hieq)
      subst hieq2
      rw [hjmatch, matchesDedup_iff]
      refine ⟨updateScopeRow sj req.scope, ?_, ?_, ?_, ?_, ?_, ?_, ?_⟩
      · rw [applyIssueUpdates_scopeId, hlook i.scopeId, hsjfind]
        simp only [Option.map_some']
        rw [if_pos (by simpa using hsjid)]
      · rw [applyIssueUpdates_ns]
        split
        · exact hjns
        · rfl
      · rw [applyIssueUpdates_issueType]
        split
        · exact hjtype
        · rfl
      · rw [applyIssueUpdates_state]
        split
        · exact hjstate
        · rename_i hne
          rcases hstate with h | h | h
          · rw [h] at hne
            simp at hne
          · exact Or.inl h
          · exact Or.inr h
      · rw [updateScopeRow_resourceType]
        split
        · exact hsjrt
        · rfl
      · rw [updateScopeRow_resourceName]
        split
        · exact hsjrn
        · rfl
      · rw [updateScopeRow_resourceNamespace]
        split
        · exact hsjrns
        · rename_i hne
          rcases hrns with h | h
          · rw [h] at hne
            simp at hne
          · exact h
    · rename_i hine
      have hisid : (i.scopeId == j.scopeId) = false := by
        have hine2 : i ≠ j := by
          intro he
          rw [he] at hine
          simp at hine
        have : i.scopeId ≠ j.scopeId := by
          intro he
          exact hine2 (List.inj_on_of_nodup_map hsnd hi hjmem he)
        simpa using this
      unfold matchesDedup
      rw [hlook i.scopeId]
      cases hfs : st.scopes.find? (fun s => s.id == i.scopeId) with
      | none => rfl
      | some s =>
        have hsid2 : s.id = i.scopeId := by simpa using List.find?_some hfs
        have hgss : ((if s.id == j.scopeId then updateScopeRow s req.scope else s) :
            IssueScope) = s := by
          rw [if_neg]
          rw [hsid2]
          simp only [hisid]
          simp
        simp only [Option.map_some', hgss]
  have hSi := updateIssueInTx_issues st j req now
  have hSs := updateIssueInTx_scopes st j req now
  have hfind2 : findDuplicateInTx (updateIssueInTx st j req now) req =
      some (applyIssueUpdates j req now) := by
    unfold findDuplicateInTx
    rw [hSi, hSs]
    rw [find?_map_congr _ _ _ st.issues hg_match]
    rw [show List.find? (matchesDedup st.scopes req) st.issues = some j from hfind]
    simp only [Option.map_some']
    rw [if_pos (by simp)]
  have hco : createOrUpdate st req now =
      (findByID (updateIssueInTx st j req now) j.id, updateIssueInTx st j req now) := by
    unfold createOrUpdate
    rw [hfind]
  rw [hco]
  refine ⟨applyIssueUpdates j req now, ?_, by rw [applyIssueUpdates_id, hjid],
    ⟨?_, ?_, ?_, ⟨applyIssueUpdates j req now, hfind2,
      by rw [applyIssueUpdates_id, hjid], by rw [applyIssueUpdates_scopeId, hjsid]⟩,
      ?_, ?_, ?_⟩, ?_, ?_⟩
  · show findByID (updateIssueInTx st j req now) j.id = _
    unfold findByID
    exact find?_updateIssueInTx st j req now hnd hjmem
  · show ((updateIssueInTx st j req now).issues.map Issue.id).Nodup
    rw [hSi, List.map_map]
    rw [List.map_congr_left (fun i _ => by
      show Issue.id ((if i.id == j.id then applyIssueUpdates i req now else i) : Issue) = Issue.id i
      exact hg_id i)]
    exact hnd
  · show ((updateIssueInTx st j req now).issues.map Issue.scopeId).Nodup
    rw [hSi, List.map_map]
    rw [List.map_congr_left (fun i _ => by
      show Issue.scopeId ((if i.id == j.id then applyIssueUpdates i req now else i) : Issue) =
        Issue.scopeId i
      exact hg_sid i)]
    exact hsnd
  · show ((updateIssueInTx st j req now).scopes.map IssueScope.id).Nodup
    rw [hSs, List.map_map]
    rw [List.map_congr_left (fun s _ => by
      show IssueScope.id ((if s.id == j.scopeId then updateScopeRow s req.scope else s) :
        IssueScope) = IssueScope.id s
      exact hgs_id s)]
    exact hscnd
  · show ((updateIssueInTx st j req now).issues.filter
        (matchesDedup (updateIssueInTx st j req now).scopes req)).length = 1
    rw [hSi, hSs]
    rw [filter_map_congr _ _ _ st.issues hg_match]
    rw [List.length_map]
    exact hcount
  · show ((updateIssueInTx st j req now).scopes.filter (scopeTripleFor req)).length = 1
    rw [hSs]
    rw [filter_map_congr _ _ _ st.scopes hgs_triple]
    rw [List.length_map]
    exact hscount
  · show ∀ s ∈ (updateIssueInTx st j req now).scopes, scopeTripleFor req s = true → s.id = s0
    rw [hSs]
    intro s' hs' htrip
    obtain ⟨s, hs, rfl⟩ := List.mem_map.mp hs'
    rw [hgs_triple s hs] at htrip
    rw [hgs_id s]
    exact hsid s hs htrip
  · show (updateIssueInTx st j req now).issues.length = st.issues.length
    rw [hSi, List.length_map]
  · show (updateIssueInTx st j req now).scopes.length = st.scopes.length
    rw [hSs, List.length_map]

theorem createOrUpdateSeq_inv (req : IssuePayload) (i0 s0 : Nat)
    (hstate : req.state = "" ∨ req.state = stateActive ∨ req.state = stateResolved)
    (hrns : req.scope.resourceNamespace = "" ∨ req.scope.resourceNamespace = req.ns) :
    ∀ (nows : List Nat) (st : Store), SeqInv req i0 s0 st →
      (∀ r ∈ (createOrUpdateSeq st req nows).1, ∃ i, r = some i ∧ i.id = i0) ∧
      SeqInv req i0 s0 (createOrUpdateSeq st req nows).2 ∧
      (createOrUpdateSeq st req nows).2.issues.length = st.issues.length ∧
      (createOrUpdateSeq st req nows).2.scopes.length = st.scopes.length := by
  intro nows
  induction nows with
  | nil =>
    intro st hinv
    exact ⟨fun r hr => by simp [createOrUpdateSeq] at hr, hinv, rfl, rfl⟩
  | cons now rest ih =>
    intro st hinv
    obtain ⟨i, hr1, hid1, hinv1, hl1, hl2⟩ :=
      createOrUpdate_step req i0 s0 st now hstate hrns hinv
    obtain ⟨hall, hinv2, hl3, hl4⟩ := ih (createOrUpdate st req now).2 hinv1
    refine ⟨?_, hinv2, ?_, ?_⟩
    · intro r hr
      rw [show (createOrUpdateSeq st req (now :: rest)).1 =
        (createOrUpdate st req now).1 ::
          (createOrUpdateSeq (createOrUpdate st req now).2 req rest).1 from rfl] at hr
      rcases List.mem_cons.mp hr with rfl | hr2
      · exact ⟨i, hr1, hid1⟩
      · exact hall r hr2
    · rw [show (createOrUpdateSeq st req (now :: rest)).2 =
        (createOrUpdateSeq (createOrUpdate st req now).2 req rest).2 from rfl]
      rw [hl3, hl1]
    · rw [show (createOrUpdateSeq st req (now :: rest)).2 =
        (createOrUpdateSeq (createOrUpdate st req now).2 req rest).2 from rfl]
      rw [hl4, hl2]

/-- C1 (amended): for every report whose optional state is a legal issue state
and whose scope resource namespace is empty or equal to its namespace,
sequential `CreateOrUpdate` submissions of that report against a
well-formed store holding no issue or scope for the report's dedup key all
return issues carrying one and the same id, and afterwards exactly one
Issue row matches the dedup query, exactly one Scope row carries the key's
scope triple, and the issue and scope tables have grown by exactly one row
in total — the later calls create nothing.  (The restriction on the scope
resource namespace is forced: `findDuplicateInTx` compares the stored
resource namespace against the report's namespace, so for other reports the
second call creates a sibling, see the counterexample.) -/
theorem C1_amended (req : IssuePayload) (st : Store) (now1 : Nat) (nows : List Nat)
    (hstate : req.state = "" ∨ req.state = stateActive ∨ req.state = stateResolved)
    (hrns : req.scope.resourceNamespace = "" ∨ req.scope.resourceNamespace = req.ns)
    (hnd : (st.issues.map Issue.id).Nodup)
    (hsnd : (st.issues.map Issue.scopeId).Nodup)
    (hscnd : (st.scopes.map IssueScope.id).Nodup)
    (hfresh1 : ∀ i ∈ st.issues, i.id < st.nextId)
    (hfresh2 : ∀ i ∈ st.issues, i.scopeId < st.nextId)
    (hfresh3 : ∀ s ∈ st.scopes, s.id < st.nextId)
    (hnone : findDuplicateInTx st req = none)
    (hnoscope : ∀ s ∈ st.scopes, scopeTripleFor req s = false) :
    ∃ i0, (∀ r ∈ (createOrUpdateSeq st req (now1 :: nows)).1, ∃ i, r = some i ∧ i.id = i0) ∧
      ((createOrUpdateSeq st req (now1 :: nows)).2.issues.filter
        (matchesDedup (createOrUpdateSeq st req (now1 :: nows)).2.scopes req)).length = 1 ∧
      ((createOrUpdateSeq st req (now1 :: nows)).2.scopes.filter
        (scopeTripleFor req)).length = 1 ∧
      (createOrUpdateSeq st req (now1 :: nows)).2.issues.length = st.issues.length + 1 ∧
      (createOrUpdateSeq st req (now1 :: nows)).2.scopes.length = st.scopes.length + 1 := by
  obtain ⟨hr1, hinv1, hl1, hl2⟩ := createOrUpdate_base req st now1 hstate hrns hnd hsnd
    hscnd hfresh1 hfresh2 hfresh3 hnone hnoscope
  obtain ⟨hall, hinv2, hl3, hl4⟩ := createOrUpdateSeq_inv req (st.nextId + 1) st.nextId
    hstate hrns nows (createOrUpdate st req now1).2 hinv1
  obtain ⟨-, -, -, -, hc1, hc2, -⟩ := hinv2
  refine ⟨st.nextId + 1, ?_, hc1, hc2, ?_, ?_⟩
  · intro r hr
    rw [show (createOrUpdateSeq st req (now1 :: nows)).1 =
      (createOrUpdate st req now1).1 ::
        (createOrUpdateSeq (createOrUpdate st req now1).2 req nows).1 from rfl] at hr
    rcases List.mem_cons.mp hr with rfl | hr2
    · exact ⟨createdIssue st req now1, hr1, rfl⟩
    · exact hall r hr2
  · rw [show (createOrUpdateSeq st req (now1 :: nows)).2 =
      (createOrUpdateSeq (createOrUpdate st req now1).2 req nows).2 from rfl]
    rw [hl3, hl1]
  · rw [show (createOrUpdateSeq st req (now1 :: nows)).2 =
      (createOrUpdateSeq (createOrUpdate st req now1).2 req nows).2 from rfl]
    rw [hl4, hl2]

/-- C1 witness: two sequential submissions of `reqA` to the empty store share
one returned id, and exactly one Issue and one Scope row exist for the key. -/
theorem C1_witness :
    ∃ i0, (∀ r ∈ (createOrUpdateSeq emptyStore reqA [10, 20]).1,
        ∃ i, r = some i ∧ i.id = i0) ∧
      ((createOrUpdateSeq emptyStore reqA [10, 20]).2.issues.filter
        (matchesDedup (createOrUpdateSeq emptyStore reqA [10, 20]).2.scopes reqA)).length = 1 ∧
      ((createOrUpdateSeq emptyStore reqA [10, 20]).2.scopes.filter
        (scopeTripleFor reqA)).length = 1 ∧
      (createOrUpdateSeq emptyStore reqA [10, 20]).2.issues.length =
        emptyStore.issues.length + 1 ∧
      (createOrUpdateSeq emptyStore reqA [10, 20]).2.scopes.length =
        emptyStore.scopes.length + 1 :=
  C1_amended reqA emptyStore 10 [20] (by decide) (by decide) (by decide) (by decide)
    (by decide) (by decide) (by decide) (by decide) (by decide) (by decide)

end Kite
